import Mathlib

/-!
Verification of the transcode session orchestrator (ffmpeg_session.py and
ffmpeg_command.py).  The Python module state is embedded as explicit state
records; Python dicts become insertion-ordered association lists; clock
values, durations and seek offsets are modelled at whole-second granularity
as integers, on which the float arithmetic of the source (differences,
comparisons, multiplication by 60, division by the segment length 3 followed
by int()) is exact; external interactions (processes, ffprobe output, clocks, playlist
readiness polling) are passed in as explicit parameters, and process
interactions performed by an operation are reported in an effect list.
-/

/-! ## Association lists with Python dict semantics

Python dicts preserve insertion order; assignment to an existing key updates
in place, a new key is appended; pop removes the entry.  Keys are unique in a
real dict; the invariants carry a Nodup assumption on keys.
-/

def aget {K V : Type} [DecidableEq K] (k : K) : List (K × V) → Option V
  | [] => none
  | (k2, v) :: t => if k2 = k then some v else aget k t

def aset {K V : Type} [DecidableEq K] (k : K) (v : V) : List (K × V) → List (K × V)
  | [] => [(k, v)]
  | (k2, v2) :: t => if k2 = k then (k, v) :: t else (k2, v2) :: aset k v t

def apop {K V : Type} [DecidableEq K] (k : K) : List (K × V) → List (K × V)
  | [] => []
  | (k2, v2) :: t => if k2 = k then t else (k2, v2) :: apop k t

def akeys {K V : Type} (l : List (K × V)) : List K := l.map Prod.fst

theorem akeys_cons {K V : Type} (p : K × V) (l : List (K × V)) :
    akeys (p :: l) = p.1 :: akeys l := rfl

theorem aget_aset_self {K V : Type} [DecidableEq K] (k : K) (v : V) (l : List (K × V)) :
    aget k (aset k v l) = some v := by
  induction l with
  | nil => simp [aget, aset]
  | cons h t ih =>
    by_cases hk : h.1 = k
    · simp [aset, aget, hk]
    · simp [aset, aget, hk, ih]

theorem aget_aset_ne {K V : Type} [DecidableEq K] {k k2 : K} (v : V) (l : List (K × V))
    (h : k2 ≠ k) : aget k2 (aset k v l) = aget k2 l := by
  induction l with
  | nil => simp [aget, aset, Ne.symm h]
  | cons p t ih =>
    by_cases hk : p.1 = k
    · simp [aset, aget, hk, Ne.symm h]
    · simp only [aset, hk, if_false, aget]
      rw [ih]

theorem aget_apop_ne {K V : Type} [DecidableEq K] {k k2 : K} (l : List (K × V))
    (h : k2 ≠ k) : aget k2 (apop k l) = aget k2 l := by
  induction l with
  | nil => simp [apop]
  | cons p t ih =>
    by_cases hk : p.1 = k
    · simp [apop, aget, hk, Ne.symm h]
    · simp only [apop, hk, if_false, aget]
      rw [ih]

theorem apop_sublist {K V : Type} [DecidableEq K] (k : K) (l : List (K × V)) :
    (apop k l).Sublist l := by
  induction l with
  | nil => simp [apop]
  | cons p t ih =>
    by_cases hk : p.1 = k
    · simp only [apop, hk, if_true]
      exact List.sublist_cons_of_sublist p (List.Sublist.refl t)
    · simp only [apop, hk, if_false]
      exact List.Sublist.cons₂ p ih

theorem mem_apop {K V : Type} [DecidableEq K] {k : K} {l : List (K × V)} {p : K × V}
    (h : p ∈ apop k l) : p ∈ l := (apop_sublist k l).mem h

theorem aget_eq_none_of_not_mem {K V : Type} [DecidableEq K] {k : K} {l : List (K × V)}
    (h : k ∉ akeys l) : aget k l = none := by
  induction l with
  | nil => rfl
  | cons p t ih =>
    simp only [akeys_cons, List.mem_cons] at h
    push_neg at h
    simp only [aget, Ne.symm h.1, if_false]
    exact ih h.2

theorem aget_apop_self {K V : Type} [DecidableEq K] (k : K) (l : List (K × V))
    (hnd : (akeys l).Nodup) : aget k (apop k l) = none := by
  induction l with
  | nil => simp [apop, aget]
  | cons p t ih =>
    simp only [akeys_cons, List.nodup_cons] at hnd
    by_cases hk : p.1 = k
    · simp only [apop, hk, if_true]
      rw [← hk]
      exact aget_eq_none_of_not_mem hnd.1
    · simp only [apop, hk, if_false, aget, hk, if_false]
      exact ih hnd.2

theorem aget_some_mem {K V : Type} [DecidableEq K] {k : K} {v : V} {l : List (K × V)}
    (h : aget k l = some v) : (k, v) ∈ l := by
  induction l with
  | nil => simp [aget] at h
  | cons p t ih =>
    by_cases hk : p.1 = k
    · simp only [aget, hk, if_true, Option.some.injEq] at h
      subst h
      rw [← hk]
      simp
    · simp only [aget, hk, if_false] at h
      exact List.mem_cons_of_mem _ (ih h)

theorem mem_aset {K V : Type} [DecidableEq K] {k : K} {v : V} {l : List (K × V)} {p : K × V}
    (h : p ∈ aset k v l) : p = (k, v) ∨ p ∈ l := by
  induction l with
  | nil => simpa [aset] using h
  | cons q t ih =>
    by_cases hk : q.1 = k
    · simp only [aset, hk, if_true] at h
      rcases List.mem_cons.mp h with h1 | h1
      · exact Or.inl h1
      · exact Or.inr (List.mem_cons_of_mem _ h1)
    · simp only [aset, hk, if_false] at h
      rcases List.mem_cons.mp h with h1 | h1
      · exact Or.inr (h1 ▸ List.mem_cons_self q t)
      · rcases ih h1 with h2 | h2
        · exact Or.inl h2
        · exact Or.inr (List.mem_cons_of_mem _ h2)

theorem aget_isSome_aset {K V : Type} [DecidableEq K] (k k2 : K) (v : V) (l : List (K × V))
    (h : (aget k2 l).isSome) : (aget k2 (aset k v l)).isSome := by
  by_cases hk : k2 = k
  · subst hk; simp [aget_aset_self]
  · rwa [aget_aset_ne v l hk]

theorem akeys_aset {K V : Type} [DecidableEq K] (k : K) (v : V) (l : List (K × V)) :
    akeys (aset k v l) = if k ∈ akeys l then akeys l else akeys l ++ [k] := by
  induction l with
  | nil => simp [aset, akeys]
  | cons p t ih =>
    by_cases hk : p.1 = k
    · simp [aset, hk, akeys_cons]
    · simp only [aset, hk, if_false, akeys_cons, ih]
      by_cases hm : k ∈ akeys t
      · simp [hm, List.mem_cons, Ne.symm hk]
      · simp [hm, List.mem_cons, Ne.symm hk]

theorem nodup_akeys_aset {K V : Type} [DecidableEq K] (k : K) (v : V) (l : List (K × V))
    (h : (akeys l).Nodup) : (akeys (aset k v l)).Nodup := by
  rw [akeys_aset]
  by_cases hm : k ∈ akeys l
  · simpa [hm]
  · simp only [hm, if_false]
    exact List.Nodup.append h (List.nodup_singleton k) (by simpa using hm)

theorem nodup_akeys_apop {K V : Type} [DecidableEq K] (k : K) (l : List (K × V))
    (h : (akeys l).Nodup) : (akeys (apop k l)).Nodup :=
  ((apop_sublist k l).map Prod.fst).nodup h

/-! ## Stable sort

Python's `sorted` is a stable sort by key; any stable sort computes the same
function, so we use insertion sort, which is stable for a total preorder.
-/

def insort {α : Type} (le : α → α → Bool) (x : α) : List α → List α
  | [] => [x]
  | y :: t => if le x y then x :: y :: t else y :: insort le x t

def isortBy {α : Type} (le : α → α → Bool) : List α → List α
  | [] => []
  | x :: t => insort le x (isortBy le t)

theorem mem_insort {α : Type} (le : α → α → Bool) (x : α) (l : List α) {z : α}
    (h : z ∈ insort le x l) : z = x ∨ z ∈ l := by
  induction l with
  | nil => simpa [insort] using h
  | cons y t ih =>
    by_cases hle : le x y
    · simp only [insort, hle, if_true] at h
      rcases List.mem_cons.mp h with h1 | h1
      · exact Or.inl h1
      · exact Or.inr h1
    · simp only [insort, hle, if_false] at h
      rcases List.mem_cons.mp h with h1 | h1
      · exact Or.inr (h1 ▸ List.mem_cons_self y t)
      · rcases ih h1 with h2 | h2
        · exact Or.inl h2
        · exact Or.inr (List.mem_cons_of_mem _ h2)

theorem mem_isortBy {α : Type} (le : α → α → Bool) (l : List α) {z : α}
    (h : z ∈ isortBy le l) : z ∈ l := by
  induction l with
  | nil => simp [isortBy] at h
  | cons x t ih =>
    simp only [isortBy] at h
    rcases mem_insort le x _ h with h1 | h1
    · exact h1 ▸ List.mem_cons_self x t
    · exact List.mem_cons_of_mem _ (ih h1)

theorem insort_ne_nil {α : Type} (le : α → α → Bool) (x : α) (l : List α) :
    insort le x l ≠ [] := by
  cases l with
  | nil => simp [insort]
  | cons y t =>
    simp only [insort]
    split <;> simp

theorem isortBy_eq_nil {α : Type} (le : α → α → Bool) {l : List α}
    (h : isortBy le l = []) : l = [] := by
  cases l with
  | nil => rfl
  | cons x t => exact absurd h (insort_ne_nil le x (isortBy le t))

theorem insort_eq_cons_of_min {α : Type} (le : α → α → Bool) (x : α) (l : List α)
    (h : ∀ z ∈ l, le x z = true) : insort le x l = x :: l := by
  cases l with
  | nil => rfl
  | cons y t => simp [insort, h y (List.mem_cons_self y t)]

theorem pairwise_insort {α : Type} (le : α → α → Bool)
    (htot : ∀ a b, le a b = false → le b a = true)
    (htrans : ∀ a b c, le a b = true → le b c = true → le a c = true)
    (x : α) (l : List α) (h : l.Pairwise (fun a b => le a b = true)) :
    (insort le x l).Pairwise (fun a b => le a b = true) := by
  induction l with
  | nil => simp [insort]
  | cons y t ih =>
    rcases List.pairwise_cons.mp h with ⟨hy, ht⟩
    by_cases hle : le x y
    · simp only [insort, hle, if_true]
      refine List.pairwise_cons.mpr ⟨?_, h⟩
      intro z hz
      rcases List.mem_cons.mp hz with h1 | h1
      · rw [h1]; exact hle
      · exact htrans x y z hle (hy z h1)
    · simp only [insort, hle, if_false]
      refine List.pairwise_cons.mpr ⟨?_, ih ht⟩
      intro z hz
      rcases mem_insort le x t hz with h1 | h1
      · rw [h1]; exact htot x y (by simpa using hle)
      · exact hy z h1

theorem pairwise_isortBy {α : Type} (le : α → α → Bool)
    (htot : ∀ a b, le a b = false → le b a = true)
    (htrans : ∀ a b c, le a b = true → le b c = true → le a c = true)
    (l : List α) : (isortBy le l).Pairwise (fun a b => le a b = true) := by
  induction l with
  | nil => simp [isortBy]
  | cons x t ih => exact pairwise_insort le htot htrans x (isortBy le t) ih

theorem filter_insort {α : Type} (le : α → α → Bool)
    (htrans : ∀ a b c, le a b = true → le b c = true → le a c = true)
    (p : α → Bool) (x : α) (l : List α)
    (hsorted : l.Pairwise (fun a b => le a b = true)) :
    (insort le x l).filter p =
      if p x then insort le x (l.filter p) else l.filter p := by
  induction l with
  | nil =>
    by_cases hp : p x <;> simp [insort, hp]
  | cons y t ih =>
    rcases List.pairwise_cons.mp hsorted with ⟨hy, ht⟩
    by_cases hle : le x y
    · simp only [insort, hle, if_true]
      by_cases hp : p x
      · have hmin : ∀ z ∈ (y :: t).filter p, le x z = true := by
          intro z hz
          rcases List.mem_cons.mp (List.mem_of_mem_filter hz) with h1 | h1
          · rw [h1]; exact hle
          · exact htrans x y z hle (hy z h1)
        rw [insort_eq_cons_of_min le x _ hmin]
        simp [List.filter_cons, hp]
      · simp [List.filter_cons, hp]
    · by_cases hp : p x <;> by_cases hpy : p y <;>
        simp [insort, List.filter_cons, hle, hp, hpy, ih ht]

theorem filter_isortBy {α : Type} (le : α → α → Bool)
    (htot : ∀ a b, le a b = false → le b a = true)
    (htrans : ∀ a b c, le a b = true → le b c = true → le a c = true)
    (p : α → Bool) (l : List α) :
    (isortBy le l).filter p = isortBy le (l.filter p) := by
  induction l with
  | nil => simp [isortBy]
  | cons x t ih =>
    simp only [isortBy]
    rw [filter_insort le htrans p x (isortBy le t) (pairwise_isortBy le htot htrans t)]
    by_cases hp : p x
    · simp [List.filter_cons, hp, ih, isortBy]
    · simp [List.filter_cons, hp, ih]

/-- The head of a stable insertion sort is the first element of the input
whose key is minimal: its key is at most every element of the input, and every
element strictly before its occurrence in the input has a strictly larger key. -/
theorem isortBy_head_stable_min {α : Type} (le : α → α → Bool)
    (htot : ∀ a b, le a b = false → le b a = true)
    (htrans : ∀ a b c, le a b = true → le b c = true → le a c = true)
    (l : List α) (e : α) (t2 : List α) (hsort : isortBy le l = e :: t2) :
    (∀ z ∈ l, le e z = true) ∧
      ∃ pre post, l = pre ++ e :: post ∧ ∀ z ∈ pre, le z e = false := by
  have hrefl : ∀ a : α, le a a = true := by
    intro a
    by_cases h : le a a
    · exact h
    · exact htot a a (by simpa using h)
  induction l generalizing e t2 with
  | nil => simp [isortBy] at hsort
  | cons x t ih =>
    simp only [isortBy] at hsort
    cases hs : isortBy le t with
    | nil =>
      rw [hs] at hsort
      have ht : t = [] := isortBy_eq_nil le hs
      subst ht
      simp only [insort] at hsort
      obtain ⟨hex, _⟩ := (List.cons.injEq x [] e t2).mp hsort
      rw [← hex]
      refine ⟨?_, ⟨[], [], by simp, by simp⟩⟩
      intro z hz
      simp only [List.mem_singleton] at hz
      rw [hz]
      exact hrefl x
    | cons h2 t3 =>
      rw [hs] at hsort
      obtain ⟨hmin2, pre2, post2, hdecomp, hpre2⟩ := ih h2 t3 hs
      simp only [insort] at hsort
      by_cases hle : le x h2
      · simp only [hle, if_true] at hsort
        obtain ⟨hex, _⟩ := (List.cons.injEq x (h2 :: t3) e t2).mp hsort
        rw [← hex]
        constructor
        · intro z hz
          rcases List.mem_cons.mp hz with h1 | h1
          · rw [h1]; exact hrefl x
          · exact htrans x h2 z hle (hmin2 z h1)
        · exact ⟨[], t, by simp, by simp⟩
      · simp only [hle, if_false] at hsort
        obtain ⟨hex, _⟩ := (List.cons.injEq h2 (insort le x t3) e t2).mp hsort
        rw [← hex]
        constructor
        · intro z hz
          rcases List.mem_cons.mp hz with h1 | h1
          · rw [h1]
            exact htot x h2 (by simpa using hle)
          · exact hmin2 z h1
        · refine ⟨x :: pre2, post2, by rw [hdecomp]; simp, ?_⟩
          intro z hz
          rcases List.mem_cons.mp hz with h1 | h1
          · rw [h1]; simpa using hle
          · exact hpre2 z h1

/-! ## Small Python helpers -/

/-- Whether `pat` is an initial run of `l`. -/
def listHasLead : List Char → List Char → Bool
  | [], _ => true
  | _ :: _, [] => false
  | p :: pt, c :: ct => p = c && listHasLead pt ct

/-- Substring test on character lists (structural, so it reduces in the
kernel, unlike String.splitOn). -/
def listContainsSub (l pat : List Char) : Bool :=
  match l with
  | [] => pat.isEmpty
  | _ :: t => listHasLead pat l || listContainsSub t pat

/-- Python substring test: `sub in s`. -/
def strContains (s sub : String) : Bool := listContainsSub s.toList sub.toList

/-- `str.lower()` character by character (structural, so it reduces in the
kernel, unlike String.map). -/
def strLower (s : String) : String := String.mk (s.toList.map Char.toLower)

/-- `str.upper()` character by character. -/
def strUpper (s : String) : String := String.mk (s.toList.map Char.toUpper)

/-- Python `str.strip(c)`: remove the character from both ends. -/
def stripChar (c : Char) (s : String) : String :=
  String.mk (((s.toList.dropWhile (· = c)).reverse.dropWhile (· = c)).reverse)

/-- Python `int(x / y)` on exactly-represented integer floats: truncation
toward zero, which is what float division followed by `int()` yields. -/
def pyIntDiv (x y : Int) : Int := Int.tdiv x y

/-- Python `"%03d" % n`: zero-pad to width 3 (nonnegative case; the code only
formats nonnegative segment indices). -/
def pad3 (n : Int) : String :=
  let s := toString n
  if s.length < 3 then String.mk (List.replicate (3 - s.length) '0') ++ s else s

/-- Python `str(x)` on a float value.  The orchestrator only passes these
rendered numbers to the external process, never parses them back, so the exact
decimal rendering is not modelled. -/
def pyFloatStr (q : Int) : String := toString q

/-! ## ffmpeg_command.py: data model -/

/-- Subtitle stream descriptor (dataclass SubtitleStream). -/
structure SubtitleStream where
  index : Int
  lang : String
  name : String
deriving DecidableEq, Repr

/-- Probe result metadata (dataclass MediaInfo). -/
structure MediaInfo where
  video_codec : String
  audio_codec : String
  pix_fmt : String
  audio_channels : Int := 0
  audio_sample_rate : Int := 0
  audio_profile : String := ""
  subtitle_codecs : Option (List String) := none
  duration : Int := 0
  height : Int := 0
  video_bitrate : Int := 0
  interlaced : Bool := false
  is_10bit : Bool := false
  is_hdr : Bool := false
  is_hls : Bool := false
deriving DecidableEq, Repr

/-- Settings consumed by the orchestrator, with the defaults the code passes
to `settings.get`. -/
structure Settings where
  vod_transcode_cache_mins : Int := 60
  live_transcode_cache_secs : Int := 0
  transcode_hw : String := "software"
  max_resolution : String := "1080p"
  quality : String := "high"
  probe_movies : Bool := false
  probe_series : Bool := false
  probe_live : Bool := false
  live_dvr_mins : Int := 0
deriving Repr

/-- External facts the planner reads lazily: the VAAPI device detected at
startup (empty string when none, matching the falsy value of
`cache.VAAPI_DEVICE`), the NVDEC codec set probed from the GPU, and whether
the libplacebo filter is available. -/
structure PlanEnv where
  vaapiDevice : String := ""
  nvdecCodecs : List String := []
  hasLibplacebo : Bool := false
deriving Repr

/-- Split a character list at the first occurrence of `c`; none when absent. -/
def splitFirstAt (c : Char) : List Char → Option (List Char × List Char)
  | [] => none
  | x :: t =>
    if x = c then some ([], t)
    else
      match splitFirstAt c t with
      | some (a, b) => some (x :: a, b)
      | none => none

/-- `_parse_hw`: `hw.split("+", 1)` when a `+` occurs, else fall back to
software. -/
def parse_hw (hw : String) : String × String :=
  match splitFirstAt '+' hw.toList with
  | some (a, b) => (String.mk a, String.mk b)
  | none => (hw, "software")

def HLS_SEGMENT_DURATION_SEC : Int := 3  -- 3.0 in the source

def TEXT_SUBTITLE_CODECS : List String :=
  ["subrip", "ass", "ssa", "mov_text", "webvtt", "srt"]

def VAAPI_SAFE_CODECS : List String :=
  ["h264", "hevc", "mpeg2video", "vp8", "vp9", "vc1", "av1"]

def QSV_SAFE_CODECS : List String :=
  ["h264", "hevc", "mpeg2video", "vp9", "vc1", "av1"]

/-- `_MAX_RES_HEIGHT.get(k)` -/
def MAX_RES_HEIGHT (k : String) : Option Int :=
  if k = "4k" then some 2160
  else if k = "1080p" then some 1080
  else if k = "720p" then some 720
  else if k = "480p" then some 480
  else none

/-- `_QUALITY_QP.get(q, 28)` -/
def QUALITY_QP (q : String) : Int :=
  if q = "high" then 20 else if q = "medium" then 28 else if q = "low" then 35 else 28

/-- `_QUALITY_CRF.get(q, 26)` -/
def QUALITY_CRF (q : String) : Int :=
  if q = "high" then 20 else if q = "medium" then 26 else if q = "low" then 32 else 26

def get_hls_segment_duration : Int := HLS_SEGMENT_DURATION_SEC

def DEFAULT_LIVE_BUFFER_SECS : Int := 30

/-- `get_live_hls_list_size`: 30s buffer when DVR disabled, else minutes of
segments (`int(dvr_mins * 60 / 3.0)`, exact for whole minutes). -/
def get_live_hls_list_size (st : Settings) : Int :=
  if st.live_dvr_mins ≤ 0 then pyIntDiv DEFAULT_LIVE_BUFFER_SECS HLS_SEGMENT_DURATION_SEC
  else pyIntDiv (st.live_dvr_mins * 60) HLS_SEGMENT_DURATION_SEC

/-- The CPU zscale+tonemap fallback filter chain ending in the given format
upload suffix (shared text of the nvenc/amf/software HDR branches). -/
def ZSCALE_TONEMAP_CORE : String :=
  "zscale=t=linear:npl=100,format=gbrpf32le,zscale=p=bt709,tonemap=hable:desat=0,zscale=t=bt709:m=bt709:r=tv,"

/-- `_build_video_args`: returns (pre_input_args, post_input_args), or the
RuntimeError / ValueError message the Python code raises. -/
def build_video_args (env : PlanEnv) (copy_video : Bool) (hw : String)
    (deinterlace : Bool) (use_hw_pipeline : Bool) (max_resolution : String)
    (quality : String) (is_hdr : Bool) :
    Except String (List String × List String) :=
  if copy_video then Except.ok ([], ["-c:v", "copy"]) else
  let (enc_type, fallback) := parse_hw hw
  let needs_vaapi := enc_type = "vaapi" ∨ fallback = "vaapi"
  if needs_vaapi ∧ env.vaapiDevice = "" then
    Except.error ("Hardware acceleration '" ++ hw ++
      "' requires VAAPI but no Intel/AMD GPU was detected. " ++
      "Select a different hardware option in settings.")
  else
    let max_h := MAX_RES_HEIGHT max_resolution
    let h : Option String := max_h.map (fun mh => "min(ih\\," ++ toString mh ++ ")")
    let qp := QUALITY_QP quality
    if enc_type = "nvenc" then
      let pre_vf :=
        if use_hw_pipeline then
          let pre := ["-hwaccel", "cuda", "-hwaccel_output_format", "cuda",
            "-extra_hw_frames", "3"]
          let scale := match h with
            | some hh => "scale_cuda=-2:" ++ hh ++ ":format=nv12"
            | none => "scale_cuda=format=nv12"
          let deint := if deinterlace then "yadif_cuda=0," else ""
          let tonemap :=
            if is_hdr then
              if env.hasLibplacebo then
                "hwdownload,format=p010le,libplacebo=tonemapping=hable:colorspace=bt709:color_primaries=bt709:color_trc=bt709,format=nv12,hwupload_cuda,"
              else
                "hwdownload,format=p010le," ++ ZSCALE_TONEMAP_CORE ++ "format=nv12,hwupload_cuda,"
            else ""
          (pre, deint ++ tonemap ++ scale)
        else if fallback = "vaapi" then
          let pre := ["-hwaccel", "vaapi", "-hwaccel_output_format", "vaapi",
            "-hwaccel_device", env.vaapiDevice]
          let scale := match h with
            | some hh => "scale_vaapi=w=-2:h=" ++ hh ++ ":format=nv12"
            | none => "scale_vaapi=format=nv12"
          let tonemap := if is_hdr then "tonemap_vaapi=format=nv12:t=bt709:m=bt709:p=bt709," else ""
          let deint := if deinterlace then "deinterlace_vaapi," else ""
          (pre, deint ++ tonemap ++ scale ++ ",hwdownload,format=nv12,hwupload_cuda")
        else
          let scale := match h with
            | some hh => "scale_cuda=-2:" ++ hh ++ ":format=nv12"
            | none => "scale_cuda=format=nv12"
          if is_hdr then
            let deint := if deinterlace then "yadif=0," else ""
            let tonemap :=
              if env.hasLibplacebo then
                "libplacebo=tonemapping=hable:colorspace=bt709:color_primaries=bt709:color_trc=bt709,format=nv12,hwupload_cuda,"
              else
                ZSCALE_TONEMAP_CORE ++ "format=nv12,hwupload_cuda,"
            (([] : List String), deint ++ tonemap ++ scale)
          else
            let deint := if deinterlace then "yadif_cuda=0," else ""
            let tonemap := "format=nv12,hwupload_cuda,"
            (([] : List String), tonemap ++ deint ++ scale)
      let preset := if deinterlace then "p4" else "p2"
      let enc_opts := ["-preset", preset, "-rc", "constqp", "-qp", toString qp,
        "-rc-lookahead", "32", "-bf", "3", "-spatial-aq", "1", "-temporal-aq", "1"]
      Except.ok (pre_vf.1,
        ["-vf", pre_vf.2, "-c:v", "h264_nvenc"] ++ enc_opts ++ ["-g", "60"])
    else if enc_type = "amf" then
      let pre_vf :=
        if fallback = "vaapi" then
          let pre := ["-hwaccel", "vaapi", "-hwaccel_output_format", "vaapi",
            "-hwaccel_device", env.vaapiDevice]
          let scale := match h with
            | some hh => "scale_vaapi=w=-2:h=" ++ hh ++ ":format=nv12"
            | none => "scale_vaapi=format=nv12"
          let tonemap := if is_hdr then "tonemap_vaapi=format=nv12:t=bt709:m=bt709:p=bt709," else ""
          let deint := if deinterlace then "deinterlace_vaapi," else ""
          (pre, deint ++ tonemap ++ scale ++ ",hwdownload,format=nv12")
        else
          let tonemap := if is_hdr then ZSCALE_TONEMAP_CORE ++ "format=nv12," else ""
          let deint := if deinterlace then "yadif=0," else ""
          let scale := match h with
            | some hh => "scale=-2:" ++ hh
            | none => ""
          let vf := (stripChar ',' (deint ++ tonemap ++ scale ++ ",format=nv12")).replace ",," ","
          (([] : List String), vf)
      let enc_opts := ["-rc", "cqp", "-qp_i", toString qp, "-qp_p", toString qp,
        "-quality", "balanced"]
      Except.ok (pre_vf.1,
        ["-vf", pre_vf.2, "-c:v", "h264_amf"] ++ enc_opts ++ ["-g", "60"])
    else if enc_type = "vaapi" then
      let pre_vf :=
        if use_hw_pipeline then
          let pre := ["-hwaccel", "vaapi", "-hwaccel_output_format", "vaapi",
            "-hwaccel_device", env.vaapiDevice, "-extra_hw_frames", "3"]
          let scale := match h with
            | some hh => "scale_vaapi=w=-2:h=" ++ hh ++ ":format=nv12"
            | none => "scale_vaapi=format=nv12"
          let tonemap := if is_hdr then "tonemap_vaapi=format=nv12:t=bt709:m=bt709:p=bt709," else ""
          let vf := if deinterlace then "deinterlace_vaapi," ++ tonemap ++ scale
            else tonemap ++ scale
          (pre, vf)
        else
          let pre := ["-vaapi_device", env.vaapiDevice]
          let scale := match h with
            | some hh => "scale_vaapi=w=-2:h=" ++ hh ++ ":format=nv12"
            | none => "scale_vaapi=format=nv12"
          let tonemap := if is_hdr then "tonemap_vaapi=format=nv12:t=bt709:m=bt709:p=bt709," else ""
          let deint := if deinterlace then "deinterlace_vaapi," else ""
          (pre, "format=nv12,hwupload," ++ deint ++ tonemap ++ scale)
      let enc_opts := ["-rc_mode", "CQP", "-qp", toString qp, "-bf", "3"]
      Except.ok (pre_vf.1,
        ["-vf", pre_vf.2, "-c:v", "h264_vaapi"] ++ enc_opts ++ ["-g", "60"])
    else if enc_type = "qsv" then
      let pre_vf :=
        if use_hw_pipeline then
          let pre := ["-hwaccel", "qsv", "-hwaccel_output_format", "qsv"]
          let scale := match h with
            | some hh => "scale_qsv=w=-2:h=" ++ hh ++ ":format=nv12"
            | none => "scale_qsv=format=nv12"
          let vf :=
            if deinterlace ∧ is_hdr then "vpp_qsv=deinterlace=2:tonemap=1:format=nv12," ++ scale
            else if deinterlace then "vpp_qsv=deinterlace=2," ++ scale
            else if is_hdr then "vpp_qsv=tonemap=1:format=nv12," ++ scale
            else scale
          (pre, vf)
        else
          let pre := ["-init_hw_device", "qsv=hw", "-filter_hw_device", "hw"]
          let scale := match h with
            | some hh => "scale_qsv=w=-2:h=" ++ hh ++ ":format=nv12"
            | none => "scale_qsv=format=nv12"
          let vf :=
            if deinterlace ∧ is_hdr then
              "format=nv12,hwupload=extra_hw_frames=64,vpp_qsv=deinterlace=2:tonemap=1:format=nv12," ++ scale
            else if deinterlace then
              "format=nv12,hwupload=extra_hw_frames=64,vpp_qsv=deinterlace=2," ++ scale
            else if is_hdr then
              "format=nv12,hwupload=extra_hw_frames=64,vpp_qsv=tonemap=1:format=nv12," ++ scale
            else
              "format=nv12,hwupload=extra_hw_frames=64," ++ scale
          (pre, vf)
      let enc_opts := ["-global_quality", toString qp, "-bf", "3", "-look_ahead", "1",
        "-look_ahead_depth", "40"]
      Except.ok (pre_vf.1,
        ["-vf", pre_vf.2, "-c:v", "h264_qsv"] ++ enc_opts ++ ["-g", "60"])
    else if enc_type = "software" then
      let tonemap := if is_hdr then ZSCALE_TONEMAP_CORE ++ "format=yuv420p," else ""
      let deint := if deinterlace then "yadif=0," else ""
      -- With no height cap the Python code rstrips a trailing comma; the
      -- string always ends in "format=yuv420p" so the rstrip is a no-op.
      let vf := match h with
        | some hh => deint ++ tonemap ++ "scale=-2:" ++ hh ++ ",format=yuv420p"
        | none => deint ++ tonemap ++ "format=yuv420p"
      let crf := QUALITY_CRF quality
      let enc_opts := ["-preset", "veryfast", "-crf", toString crf, "-bf", "3"]
      Except.ok (([] : List String),
        ["-vf", vf, "-c:v", "libx264"] ++ enc_opts ++ ["-g", "60"])
    else
      Except.error ("Unrecognized hardware encoder: '" ++ enc_type ++ "'.")

/-- `_build_audio_args` -/
def build_audio_args (copy_audio : Bool) (audio_sample_rate : Int) : List String :=
  if copy_audio then ["-c:a", "copy"]
  else
    let rate := if audio_sample_rate = 44100 ∨ audio_sample_rate = 48000
      then toString audio_sample_rate else "48000"
    ["-c:a", "aac", "-ac", "2", "-ar", rate, "-b:a", "192k", "-profile:a", "aac_low"]

/-- The stream-copy decision for video, as computed inside
`build_hls_ffmpeg_cmd`. -/
def copyVideoDecision (media_info : Option MediaInfo) (max_resolution : String) : Bool :=
  let max_h := (MAX_RES_HEIGHT max_resolution).getD 9999
  match media_info with
  | none => false
  | some mi =>
    mi.video_codec = "h264" ∧ mi.pix_fmt = "yuv420p" ∧ ¬(mi.height > max_h) ∧ ¬mi.interlaced

/-- The stream-copy decision for audio, as computed inside
`build_hls_ffmpeg_cmd`. -/
def copyAudioDecision (media_info : Option MediaInfo) : Bool :=
  match media_info with
  | none => false
  | some mi =>
    mi.audio_codec = "aac" ∧ mi.audio_channels ≤ 2 ∧
      (mi.audio_sample_rate = 44100 ∨ mi.audio_sample_rate = 48000) ∧
      ¬strContains mi.audio_profile "HE"

/-- The hardware-decode-pipeline decision, as computed inside
`build_hls_ffmpeg_cmd`. -/
def useHwPipelineDecision (env : PlanEnv) (copy_video : Bool)
    (media_info : Option MediaInfo) (enc_type : String) : Bool :=
  ¬copy_video ∧ media_info.isSome ∧
    (let codec := (media_info.map MediaInfo.video_codec).getD ""
     (enc_type = "nvenc" ∧ codec ∈ env.nvdecCodecs) ∨
       (enc_type = "vaapi" ∧ codec ∈ VAAPI_SAFE_CODECS) ∨
       (enc_type = "qsv" ∧ codec ∈ QSV_SAFE_CODECS))

/-- `build_hls_ffmpeg_cmd`: the full planner.  Settings-derived values that the
Python code reads through module functions come in through `st` and `env`.
Raises (returns `Except.error`) exactly when `_build_video_args` raises. -/
def build_hls_ffmpeg_cmd (env : PlanEnv) (st : Settings) (input_url : String)
    (hw : String) (output_dir : String) (is_vod : Bool)
    (subtitles : Option (List SubtitleStream)) (media_info : Option MediaInfo)
    (max_resolution : String) (quality : String) (user_agent : Option String)
    (deinterlace_fallback : Option Bool) : Except String (List String) :=
  let copy_video := copyVideoDecision media_info max_resolution
  let copy_audio := copyAudioDecision media_info
  let enc_type := (parse_hw hw).1
  let use_hw_pipeline := useHwPipelineDecision env copy_video media_info enc_type
  let fallback := deinterlace_fallback.getD (¬is_vod)
  let deinterlace := match media_info with
    | some mi => mi.interlaced
    | none => fallback
  match build_video_args env copy_video hw deinterlace use_hw_pipeline
      max_resolution quality ((media_info.map MediaInfo.is_hdr).getD false) with
  | Except.error e => Except.error e
  | Except.ok (video_pre, video_post) =>
    let audio_args := build_audio_args copy_audio
      ((media_info.map MediaInfo.audio_sample_rate).getD 0)
    let base := ["ffmpeg", "-hide_banner", "-loglevel", "error", "-noautorotate"]
    let probe_args :=
      if media_info.isNone then
        let probe_size := if is_vod then "50000" else "5000000"
        let analyze_dur := if is_vod then "500000" else "5000000"
        ["-probesize", probe_size, "-analyzeduration", analyze_dur]
      else []
    let input_args := ["-fflags", "+discardcorrupt+genpts", "-err_detect", "ignore_err",
      "-reconnect", "1", "-reconnect_streamed", "1", "-reconnect_on_network_error", "1",
      "-reconnect_on_http_error", "4xx,5xx", "-reconnect_delay_max", "30"]
    let ua_args := match user_agent with
      | some ua => ["-user_agent", ua]
      | none => []
    let hls_in_args := match media_info with
      | some mi => if mi.is_hls then ["-f", "hls", "-extension_picky", "0"] else []
      | none => []
    let sub_args := (List.range (subtitles.getD []).length).zip (subtitles.getD []) |>.flatMap
      (fun p => ["-map", "0:" ++ toString p.2.index, "-c:s", "webvtt",
        "-flush_packets", "1", output_dir ++ "/sub" ++ toString p.1 ++ ".vtt"])
    let hls_out := ["-max_delay", "5000000", "-f", "hls",
      "-hls_time", toString HLS_SEGMENT_DURATION_SEC,
      "-hls_list_size", if is_vod then "0" else toString (get_live_hls_list_size st),
      "-hls_segment_filename", output_dir ++ "/seg%03d.ts"]
    let vod_live_args :=
      if is_vod then ["-hls_init_time", "2", "-hls_flags", "independent_segments",
        "-hls_playlist_type", "event"]
      else ["-hls_flags", "delete_segments"]
    Except.ok (base ++ video_pre ++ probe_args ++ input_args ++ ua_args ++ hls_in_args ++
      ["-i", input_url] ++ sub_args ++ ["-map", "0:v:0", "-map", "0:a:0"] ++
      video_post ++ audio_args ++ hls_out ++ vod_live_args ++
      [output_dir ++ "/stream.m3u8"])

/-! ## ffmpeg_command.py: probe caches and probe_media -/

def PROBE_CACHE_TTL_SEC : Int := 3600

def SERIES_PROBE_CACHE_TTL_SEC : Int := 7 * 24 * 3600

/-- One `_series_probe_cache[series_id]` value. -/
structure SeriesData where
  name : String := ""
  mru : Option Int := none
  episodes : List (Int × (Int × MediaInfo × List SubtitleStream)) := []
deriving DecidableEq, Repr

/-- The two in-memory probe caches.  The URL cache values are annotated
`MediaInfo | None` in the source but only ever store a real MediaInfo. -/
structure ProbeCache where
  urlCache : List (String × (Int × MediaInfo × List SubtitleStream)) := []
  seriesCache : List (Int × SeriesData) := []
deriving DecidableEq, Repr

/-- `invalidate_series_probe_cache` (the on-disk flush is not modelled). -/
def invalidate_series_probe_cache (series_id : Int) (episode_id : Option Int)
    (pc : ProbeCache) : ProbeCache :=
  match aget series_id pc.seriesCache with
  | none => pc
  | some sd =>
    match episode_id with
    | none => { pc with seriesCache := apop series_id pc.seriesCache }
    | some eid =>
      if (aget eid sd.episodes).isSome then
        let sd2 : SeriesData := { sd with episodes := apop eid sd.episodes }
        { pc with seriesCache := aset series_id sd2 pc.seriesCache }
      else pc

/-- `restore_probe_cache_entry` (used by the recovery sweep): never overwrites
an existing entry for the same key. -/
def restore_probe_cache_entry (now : Int) (url : String) (media_info : MediaInfo)
    (subs : List SubtitleStream) (series_id : Option Int) (episode_id : Option Int)
    (pc : ProbeCache) : ProbeCache :=
  let pc1 := if (aget url pc.urlCache).isNone then
    { pc with urlCache := aset url (now, media_info, subs) pc.urlCache } else pc
  match series_id with
  | none => pc1
  | some sid =>
    let sd := (aget sid pc1.seriesCache).getD { name := "", episodes := [] }
    let eid := episode_id.getD 0  -- `episode_id or 0`
    if (aget eid sd.episodes).isNone then
      let sd2 : SeriesData := { sd with episodes := aset eid (now, media_info, subs) sd.episodes }
      { pc1 with seriesCache := aset sid sd2 pc1.seriesCache }
    else
      if (aget sid pc1.seriesCache).isNone then
        { pc1 with seriesCache := aset sid sd pc1.seriesCache }
      else pc1

/-- The series/episode cache read of `probe_media`: the first component is the
hit (if any), the second the cache after the MRU-pointer update performed on
an exact fresh hit.  An exact episode that is present but stale does not fall
back to the MRU entry (the `elif` in the source). -/
def series_probe_lookup (now : Int) (pc : ProbeCache) (sid : Int)
    (episode_id : Option Int) :
    Option (MediaInfo × List SubtitleStream) × ProbeCache :=
  match aget sid pc.seriesCache with
  | none => (none, pc)
  | some sd =>
    let mruFallback : Option (MediaInfo × List SubtitleStream) :=
      match sd.mru with
      | some meid =>
        match aget meid sd.episodes with
        | some (ct, mi, subs) =>
          if now - ct < SERIES_PROBE_CACHE_TTL_SEC then some (mi, subs) else none
        | none => none
      | none => none
    match episode_id with
    | some eid =>
      match aget eid sd.episodes with
      | some (ct, mi, subs) =>
        if now - ct < SERIES_PROBE_CACHE_TTL_SEC then
          let pc2 := if sd.mru ≠ some eid then
            { pc with seriesCache := aset sid { sd with mru := some eid } pc.seriesCache }
          else pc
          (some (mi, subs), pc2)
        else (none, pc)
      | none => (mruFallback, pc)
    | none => (mruFallback, pc)

/-- The URL cache read of `probe_media`. -/
def url_probe_lookup (now : Int) (pc : ProbeCache) (url : String) :
    Option (MediaInfo × List SubtitleStream) :=
  match aget url pc.urlCache with
  | some (ct, mi, subs) =>
    if now - ct < PROBE_CACHE_TTL_SEC then some (mi, subs) else none
  | none => none

/-- One stream object of the parsed ffprobe JSON, restricted to the fields the
extraction loop reads, with the defaults `stream.get` supplies.  A missing or
unparseable numeric field is its default. -/
structure ProbeStream where
  codec_name : String := ""
  codec_type : String := ""
  pix_fmt : String := ""
  height : Int := 0
  field_order : String := ""
  color_transfer : String := ""
  bit_rate : Int := 0
  channels : Int := 0
  sample_rate : Int := 0
  profile : String := ""
  index : Option Int := none
  tag_language : Option String := none
  tag_name : Option String := none
  tag_title : Option String := none
deriving DecidableEq, Repr

/-- The parsed ffprobe output: streams plus the format-level duration and
bitrate (absent or unparseable values are `none`). -/
structure ProbeData where
  streams : List ProbeStream := []
  duration : Option Int := none
  bit_rate : Option Int := none
deriving DecidableEq, Repr

def LANG_NAMES (code : String) : Option String :=
  if code = "eng" then some "English"
  else if code = "spa" then some "Spanish"
  else if code = "fre" then some "French"
  else if code = "ger" then some "German"
  else if code = "por" then some "Portuguese"
  else if code = "ita" then some "Italian"
  else if code = "jpn" then some "Japanese"
  else if code = "kor" then some "Korean"
  else if code = "chi" then some "Chinese"
  else if code = "ara" then some "Arabic"
  else if code = "rus" then some "Russian"
  else if code = "und" then some "Unknown"
  else none

def lang_display_name (code : String) : String := (LANG_NAMES code).getD (strUpper code)

/-- Python `a or b or c` over optional strings: first present non-empty one. -/
def firstTruthy : List (Option String) → Option String
  | [] => none
  | some s :: t => if s = "" then firstTruthy t else some s
  | none :: t => firstTruthy t

/-- Accumulator of the for-loop over ffprobe streams. -/
structure ExtractAcc where
  video_codec : String := ""
  audio_codec : String := ""
  pix_fmt : String := ""
  audio_profile : String := ""
  audio_channels : Int := 0
  audio_sample_rate : Int := 0
  subtitle_codecs : List String := []
  subtitles : List SubtitleStream := []
  height : Int := 0
  video_bitrate : Int := 0
  interlaced : Bool := false
  is_10bit : Bool := false
  is_hdr : Bool := false
deriving DecidableEq, Repr

/-- One iteration of the stream-extraction loop in `probe_media`. -/
def extract_stream (acc : ExtractAcc) (s : ProbeStream) : ExtractAcc :=
  let codec := strLower s.codec_name
  if s.codec_type = "video" ∧ acc.video_codec = "" then
    { acc with
      video_codec := codec
      pix_fmt := s.pix_fmt
      height := s.height
      interlaced := strLower s.field_order ∈ ["tt", "bb", "tb", "bt"]
      is_10bit := strContains s.pix_fmt "p10" ∨ strContains s.pix_fmt "10le" ∨
        strContains s.pix_fmt "10be"
      is_hdr := strLower s.color_transfer ∈ ["smpte2084", "arib-std-b67"]
      video_bitrate := s.bit_rate }
  else if s.codec_type = "audio" ∧ acc.audio_codec = "" then
    { acc with
      audio_codec := codec
      audio_channels := s.channels
      audio_sample_rate := s.sample_rate
      audio_profile := s.profile }
  else if s.codec_type = "subtitle" then
    let acc2 := { acc with subtitle_codecs := acc.subtitle_codecs ++ [codec] }
    if codec ∈ TEXT_SUBTITLE_CODECS then
      match s.index with
      | some idx =>
        let lang := strLower (s.tag_language.getD "und")
        let name := (firstTruthy [s.tag_name, s.tag_title]).getD (lang_display_name lang)
        { acc2 with subtitles := acc2.subtitles ++ [⟨idx, lang, name⟩] }
      | none => acc2
    else acc2
  else acc

/-- Metadata extraction from a successful probe, mirroring the tail of
`probe_media` (duration and format-bitrate fallback included). -/
def extract_probe (data : ProbeData) (is_hls : Bool) : ExtractAcc × MediaInfo :=
  let acc := data.streams.foldl extract_stream {}
  let duration := data.duration.getD 0
  let video_bitrate :=
    if acc.video_bitrate = 0 then data.bit_rate.getD acc.video_bitrate
    else acc.video_bitrate
  (acc,
    { video_codec := acc.video_codec
      audio_codec := acc.audio_codec
      pix_fmt := acc.pix_fmt
      audio_channels := acc.audio_channels
      audio_sample_rate := acc.audio_sample_rate
      audio_profile := acc.audio_profile
      subtitle_codecs := if acc.subtitle_codecs = [] then none else some acc.subtitle_codecs
      duration := duration
      height := acc.height
      video_bitrate := video_bitrate
      interlaced := acc.interlaced
      is_10bit := acc.is_10bit
      is_hdr := acc.is_hdr
      is_hls := is_hls })

/-- `probe_media`.  The external double ffprobe invocation is summarised by
`probeOutcome`: `none` when both attempts failed, otherwise the parsed JSON
and the resulting `is_hls` flag (`force_hls or "hls" in format_name`).  The
asynchronous disk flush of the series cache is not modelled. -/
def probe_media (now : Int) (probeOutcome : Option (ProbeData × Bool)) (url : String)
    (series_id : Option Int) (episode_id : Option Int) (series_name : String)
    (pc : ProbeCache) : ProbeCache × (Option MediaInfo × List SubtitleStream) :=
  let phase1 : Option ((MediaInfo × List SubtitleStream) × ProbeCache) :=
    match series_id with
    | some sid =>
      match series_probe_lookup now pc sid episode_id with
      | (some hit, pc2) => some (hit, pc2)
      | (none, _) => none
    | none => none
  match phase1 with
  | some (hit, pc2) => (pc2, (some hit.1, hit.2))
  | none =>
    match url_probe_lookup now pc url with
    | some (mi, subs) => (pc, (some mi, subs))
    | none =>
      match probeOutcome with
      | none => (pc, (none, []))
      | some (data, is_hls) =>
        let (acc, media_info) := extract_probe data is_hls
        if acc.video_codec = "" then (pc, (none, []))
        else if acc.height ≤ 0 then (pc, (some media_info, acc.subtitles))
        else
          let pc3 := { pc with urlCache := aset url (now, media_info, acc.subtitles) pc.urlCache }
          match series_id with
          | none => (pc3, (some media_info, acc.subtitles))
          | some sid =>
            let sd : SeriesData := match aget sid pc3.seriesCache with
              | none => { name := series_name, episodes := [] }
              | some sd0 =>
                if sd0.name = "" ∧ series_name ≠ "" then { sd0 with name := series_name }
                else sd0
            let eid := episode_id.getD 0
            let sd2 := { sd with
              episodes := aset eid (now, media_info, acc.subtitles) sd.episodes
              mru := some eid }
            ({ pc3 with seriesCache := aset sid sd2 pc3.seriesCache },
              (some media_info, acc.subtitles))

/-! ## ffmpeg_session.py: data model -/

/-- The external process handle attached to a session: a live asyncio process
(`returncode is None`), an exited one, or the `_DeadProcess` placeholder used
for recovered sessions (its returncode attribute is -1). -/
inductive Proc where
  | running
  | exited (code : Int)
  | dead
deriving DecidableEq, Repr

def Proc.returncode : Proc → Option Int
  | .running => none
  | .exited c => some c
  | .dead => some (-1)

/-- `_is_process_alive`: the placeholder and exited processes are dead. -/
def is_process_alive (p : Proc) : Bool :=
  match p with
  | .running => true
  | _ => false

/-- One `_transcode_sessions` entry.  Every creation site of the dict sets all
of these keys, so the defensive `session.get(...)` defaults of the source
collapse to plain fields. -/
structure Session where
  dir : String
  process : Proc
  started : Int
  url : String
  is_vod : Bool := false
  last_access : Int
  subtitles : List SubtitleStream := []
  duration : Int := 0
  seek_offset : Int := 0
  series_id : Option Int := none
  episode_id : Option Int := none
  username : String := ""
  source_id : String := ""
deriving DecidableEq, Repr

/-- The registry: the session table and the URL-to-session-id index. -/
structure Registry where
  sessions : List (String × Session) := []
  urlIndex : List (String × String) := []
deriving DecidableEq, Repr

/-- A structural model of an HLS playlist file as the orchestrator reads and
writes it: the media-sequence header and one (EXTINF duration, file name)
pair per segment. -/
structure Playlist where
  version : Int := 3
  targetDuration : Int
  mediaSequence : Int
  playlistType : Option String := none
  entries : List (Int × String) := []
deriving DecidableEq, Repr

/-- The "probe" block of a persisted session descriptor. -/
structure ProbePayload where
  video_codec : String := ""
  audio_codec : String := ""
  pix_fmt : String := ""
  audio_channels : Int := 0
  audio_sample_rate : Int := 0
  subtitle_codecs : Option (List String) := none
  height : Int := 0
  video_bitrate : Int := 0
  interlaced : Bool := false
deriving DecidableEq, Repr

/-- The persisted session descriptor (session.json).  Fields read back through
`info.get(...)` with a non-constant default keep their Option form. -/
structure SessionInfo where
  session_id : String
  url : String
  is_vod : Bool := false
  started : Option Int := none
  subtitles : List SubtitleStream := []
  duration : Int := 0
  seek_offset : Int := 0
  series_id : Option Int := none
  episode_id : Option Int := none
  username : String := ""
  source_id : String := ""
  probe : Option ProbePayload := none
deriving DecidableEq, Repr

/-- One transcode output directory: numbered segment files with their sizes,
the playlist, the descriptor, and extracted subtitle files. -/
structure SessionDir where
  segs : List (Int × Nat) := []
  playlist : Option Playlist := none
  session_json : Option SessionInfo := none
  subs : List String := []
deriving DecidableEq, Repr

/-- The whole mutable state the orchestrator owns: the registry, the transcode
directories on disk, and the probe caches. -/
structure World where
  reg : Registry := {}
  fs : List (String × SessionDir) := []
  probe : ProbeCache := {}
deriving DecidableEq, Repr

/-- Process interactions an operation performs (kills are tagged with the
session whose pipeline is being torn down or replaced). -/
inductive ProcEffect where
  | kill (session_id : String)
  | spawn (cmd : List String)
deriving DecidableEq, Repr

def QUICK_FAILURE_THRESHOLD_SEC : Int := 10

def HEARTBEAT_TIMEOUT_SEC : Int := 30

def MIN_SEGMENT_SIZE_BYTES : Nat := 1000

def get_vod_cache_timeout (st : Settings) : Int := st.vod_transcode_cache_mins * 60

def get_live_cache_timeout (st : Settings) : Int := st.live_transcode_cache_secs

/-- `is_session_valid` -/
def is_session_valid (st : Settings) (now : Int) (s : Session) : Bool :=
  let time_since_heartbeat := now - s.last_access
  if time_since_heartbeat > HEARTBEAT_TIMEOUT_SEC then false
  else if is_process_alive s.process then true
  else
    let cache_timeout := if s.is_vod then get_vod_cache_timeout st else get_live_cache_timeout st
    if cache_timeout ≤ 0 then false
    else decide (time_since_heartbeat < cache_timeout)

/-- `stop_session`.  `_kill_process` is attempted on every non-early-return
path; its graceful-then-forced termination is a single kill effect. -/
def stop_session (st : Settings) (now : Int) (session_id : String) (force : Bool)
    (w : World) : World × List ProcEffect :=
  match aget session_id w.reg.sessions with
  | none => (w, [])
  | some s =>
    if ¬force ∧ now - s.last_access < 5 then (w, [])
    else
      let eff := [ProcEffect.kill session_id]
      let cache_timeout := if s.is_vod then get_vod_cache_timeout st else get_live_cache_timeout st
      if ¬force ∧ cache_timeout > 0 then
        let s2 := { s with last_access := now }
        ({ w with reg := { w.reg with sessions := aset session_id s2 w.reg.sessions } }, eff)
      else
        let sessions2 := apop session_id w.reg.sessions
        let urlIndex2 := if s.url ≠ "" then apop s.url w.reg.urlIndex else w.reg.urlIndex
        let reg2 : Registry := { sessions := sessions2, urlIndex := urlIndex2 }
        ({ w with reg := reg2, fs := apop s.dir w.fs }, eff)

/-- Key comparison for `sorted(..., key=lambda x: x[1].get("started", 0))`. -/
def startedLe (a b : String × Session) : Bool := decide (a.2.started ≤ b.2.started)

/-- `get_user_sessions`: the user's sessions, sorted oldest first (stable). -/
def get_user_sessions (username : String) (r : Registry) : List (String × Session) :=
  isortBy startedLe (r.sessions.filter (fun p => decide (p.2.username = username)))

/-- `get_source_sessions` -/
def get_source_sessions (source_id : String) (r : Registry) : List (String × Session) :=
  isortBy startedLe (r.sessions.filter (fun p => decide (p.2.source_id = source_id)))

/-- The source-cap step of `enforce_stream_limits`: evict the caller's oldest
session on the source, or refuse with a capacity error. -/
def enforce_source_step (st : Settings) (now : Int) (username : String)
    (source_id : String) (source_max : Nat) (w : World) :
    (World × List ProcEffect) ⊕ String :=
  if source_id ≠ "" ∧ 0 < source_max then
    if source_max ≤ (get_source_sessions source_id w.reg).length then
      match (get_source_sessions source_id w.reg).filter
          (fun p => decide (p.2.username = username)) with
      | (oldest_sid, _) :: _ => Sum.inl (stop_session st now oldest_sid true w)
      | [] => Sum.inr ("Source at capacity (" ++ toString source_max ++ " streams)")
    else Sum.inl (w, [])
  else Sum.inl (w, [])

/-- `enforce_stream_limits`: hard per-source cap (reclaim own slot or refuse),
soft per-user cap (rotate own oldest). -/
def enforce_stream_limits (st : Settings) (now : Int) (username : String)
    (source_id : String) (user_max source_max : Nat) (w : World) :
    World × List ProcEffect × Option String :=
  match enforce_source_step st now username source_id source_max w with
  | Sum.inr err => (w, [], some err)
  | Sum.inl (w1, eff1) =>
    if 0 < user_max then
      if user_max ≤ (get_user_sessions username w1.reg).length then
        match get_user_sessions username w1.reg with
        | (oldest_sid, _) :: _ =>
          ((stop_session st now oldest_sid true w1).1,
            eff1 ++ (stop_session st now oldest_sid true w1).2, none)
        | [] => (w1, eff1, none)
      else (w1, eff1, none)
    else (w1, eff1, none)

/-! ## ffmpeg_session.py: recovery sweep -/

/-- What the sweep reads from one candidate `netv_transcode_*` directory:
its modification time, whether `stat` succeeded, whether session.json exists,
whether any `seg*.ts` file exists, and the parse result of session.json
(`none` models a raised exception: unparseable JSON or missing keys). -/
structure RecoverDirInput where
  name : String
  mtime : Int
  statOk : Bool := true
  hasInfoFile : Bool := true
  hasSegs : Bool := true
  parsed : Option SessionInfo := none
deriving Repr

/-- One iteration of the `cleanup_and_recover_sessions` loop. -/
def recover_dir (now cache_timeout : Int) (w : World) (d : RecoverDirInput) : World :=
  let removeDir : World := { w with fs := apop d.name w.fs }
  if ¬d.statOk then removeDir
  else if ¬d.hasInfoFile then removeDir
  else if now - d.mtime > cache_timeout then removeDir
  else if ¬d.hasSegs then removeDir
  else
    match d.parsed with
    | none => removeDir
    | some info =>
      if ¬(info.is_vod ∧ info.url ≠ "") then removeDir
      else
        let session_id := info.session_id
        let url := info.url
        let new_seek := info.seek_offset
        let s : Session := {
          dir := d.name
          process := Proc.dead
          started := info.started.getD d.mtime
          url := url
          is_vod := true
          last_access := now  -- current time, not mtime, to avoid immediate expiration
          subtitles := info.subtitles
          duration := info.duration
          seek_offset := new_seek
          series_id := info.series_id
          episode_id := info.episode_id
          username := info.username
          source_id := info.source_id }
        let sessions2 := aset session_id s w.reg.sessions
        let urlIndex2 :=
          match aget url w.reg.urlIndex with
          | some existing_id =>
            -- Prefer session with seek_offset or more recent mtime (the code
            -- reads the previously recovered session's last_access here).
            let existing := aget existing_id sessions2
            let existing_seek := (existing.map Session.seek_offset).getD 0
            let existing_mtime := (existing.map Session.last_access).getD 0
            if (new_seek > 0 ∧ existing_seek = 0) ∨
                (existing_seek = 0 ∧ new_seek = 0 ∧ d.mtime > existing_mtime) then
              aset url session_id w.reg.urlIndex
            else w.reg.urlIndex
          | none => aset url session_id w.reg.urlIndex
        let probe2 :=
          match info.probe with
          | some p =>
            let media_info : MediaInfo := {
              video_codec := p.video_codec
              audio_codec := p.audio_codec
              pix_fmt := p.pix_fmt
              audio_channels := p.audio_channels
              audio_sample_rate := p.audio_sample_rate
              subtitle_codecs := p.subtitle_codecs
              duration := info.duration
              height := p.height
              video_bitrate := p.video_bitrate
              interlaced := p.interlaced }
            restore_probe_cache_entry now url media_info info.subtitles
              info.series_id info.episode_id w.probe
          | none => w.probe
        { reg := { sessions := sessions2, urlIndex := urlIndex2 }, fs := w.fs, probe := probe2 }

/-- `cleanup_and_recover_sessions`: fold the per-directory step over the
candidate directories in scan order. -/
def cleanup_and_recover_sessions (st : Settings) (now : Int)
    (dirs : List RecoverDirInput) (w : World) : World :=
  dirs.foldl (recover_dir now (get_vod_cache_timeout st)) w

/-! ## ffmpeg_session.py: monitors and playlist helpers -/

/-- `_monitor_resume_ffmpeg` after the process exits: `returncode` is the exit
status and `elapsed` the time since the monitor started.  Only a nonzero exit
within the quick-failure threshold invalidates the session. -/
def monitor_resume_ffmpeg (returncode : Int) (elapsed : Int) (session_id url : String)
    (w : World) : World :=
  if returncode ≠ 0 then
    if elapsed < QUICK_FAILURE_THRESHOLD_SEC then
      let urlIndex2 := apop url w.reg.urlIndex
      let reg2 : Registry := { sessions := apop session_id w.reg.sessions, urlIndex := urlIndex2 }
      match aget session_id w.reg.sessions with
      | some s => { w with reg := reg2, fs := apop s.dir w.fs }
      | none => { w with reg := reg2 }
    else w
  else w

/-- Lexicographic comparison of strings by code point, as Python compares
file names (String.le of the core library does not reduce in the kernel). -/
def listLexLe : List Char → List Char → Bool
  | [], _ => true
  | _ :: _, [] => false
  | x :: xs, y :: ys =>
    if x.toNat < y.toNat then true
    else if y.toNat < x.toNat then false
    else listLexLe xs ys

/-- `seg%03d.ts` -/
def segName (n : Int) : String := "seg" ++ pad3 n ++ ".ts"

/-- Sort order of `sorted(output_dir.glob("seg*.ts"))`: by file name. -/
def segNameLe (a b : Int × Nat) : Bool := listLexLe (segName a.1).toList (segName b.1).toList

/-- `_calc_hls_duration` -/
def calc_hls_duration (playlist : Option Playlist) (segment_count : Nat) : Int :=
  match playlist with
  | some pl =>
    if pl.entries ≠ [] then (pl.entries.map Prod.fst).sum
    else (segment_count : Int) * get_hls_segment_duration
  | none => (segment_count : Int) * get_hls_segment_duration

/-- One subtitle track of a start/seek response. -/
structure SubTrack where
  url : String
  lang : String
  label : String
  isDefault : Bool
deriving DecidableEq, Repr

/-- `_build_subtitle_tracks` (the sub_info entries are always dicts here). -/
def build_subtitle_tracks (session_id : String) (sub_info : List SubtitleStream) :
    List SubTrack :=
  ((List.range sub_info.length).zip sub_info).map fun p =>
    { url := "/subs/" ++ session_id ++ "/sub" ++ toString p.1 ++ ".vtt"
      lang := p.2.lang
      label := p.2.name
      isDefault := decide (p.1 = 0) }

/-- `_regenerate_playlist`: rebuild the playlist from the on-disk segments at
or after `start_segment` that exceed the size threshold; write nothing when no
segment qualifies.  Segment file stems always parse as integers here, so the
ValueError branch is empty. -/
def regenerate_playlist (output : SessionDir) (start_segment : Int) : SessionDir :=
  let seg_duration := get_hls_segment_duration
  let segments := (isortBy segNameLe output.segs).filter
    (fun p => decide (start_segment ≤ p.1) && decide (MIN_SEGMENT_SIZE_BYTES < p.2))
  if segments = [] then output
  else
    let pl : Playlist := {
      version := 3
      targetDuration := seg_duration + 1  -- int(seg_duration) + 1
      mediaSequence := start_segment
      playlistType := some "EVENT"
      entries := segments.map (fun p => (seg_duration, segName p.1)) }
    { output with playlist := some pl }

/-! ## ffmpeg_session.py: snapshots, responses, reuse, seek, start -/

/-- `_SessionSnapshot` -/
structure SessionSnapshot where
  output_dir : String
  process : Proc
  seek_offset : Int
  subtitles : List SubtitleStream
  duration : Int
deriving DecidableEq, Repr

/-- `_get_session_snapshot`: also refreshes last_access (heartbeat). -/
def get_session_snapshot (now : Int) (session_id : String) (w : World) :
    Option SessionSnapshot × World :=
  match aget session_id w.reg.sessions with
  | none => (none, w)
  | some s =>
    let s2 := { s with last_access := now }
    let snap : SessionSnapshot := {
      output_dir := s.dir
      process := s.process
      seek_offset := s.seek_offset
      subtitles := s.subtitles
      duration := s.duration }
    (some snap,
      { w with reg := { w.reg with sessions := aset session_id s2 w.reg.sessions } })

/-- `_update_session_process` -/
def update_session_process (session_id : String) (p : Proc) (w : World) : Bool × World :=
  match aget session_id w.reg.sessions with
  | none => (false, w)
  | some s =>
    (true, { w with reg :=
      { w.reg with sessions := aset session_id { s with process := p } w.reg.sessions } })

/-- The response dict of a start/reuse/resume. -/
structure StartResponse where
  session_id : String
  playlist : String
  subtitles : List SubTrack
  duration : Int
  seek_offset : Int
  transcoded_duration : Option Int := none
deriving DecidableEq, Repr

/-- `_build_session_response` -/
def build_session_response (session_id : String) (snap : SessionSnapshot)
    (d : Option SessionDir) : StartResponse :=
  let segments := (d.map SessionDir.segs).getD []
  { session_id := session_id
    playlist := "/transcode/" ++ session_id ++ "/stream.m3u8"
    subtitles := build_subtitle_tracks session_id snap.subtitles
    duration := snap.duration
    seek_offset := snap.seek_offset
    transcoded_duration := some (calc_hls_duration (d.bind SessionDir.playlist) segments.length) }

/-- `_get_existing_session` -/
def get_existing_session (st : Settings) (now : Int) (url : String) (r : Registry) :
    Option String × Bool × Int :=
  match aget url r.urlIndex with
  | none => (none, false, 0)
  | some existing_id =>
    match aget existing_id r.sessions with
    | none => (none, false, 0)
    | some s => (some existing_id, is_session_valid st now s, s.seek_offset)

/-- `_cleanup_invalid_session` -/
def cleanup_invalid_session (st : Settings) (now : Int) (url session_id : String)
    (w : World) : World × List ProcEffect :=
  let w1 := { w with reg := { w.reg with urlIndex := apop url w.reg.urlIndex } }
  stop_session st now session_id true w1

/-- Insert items immediately before the first occurrence of a token
(`cmd.index(tok)` followed by two inserts).  The token is always present in
the command lists this is applied to. -/
def insertBefore (tok : String) (items : List String) : List String → List String
  | [] => items
  | x :: t => if x = tok then items ++ x :: t else x :: insertBefore tok items t

/-- The resume path's `-hls_flags` patch: append "+append_list" to the value
following the first "-hls_flags", or add the pair when absent. -/
def append_hls_flags : List String → List String
  | [] => ["-hls_flags", "append_list"]
  | x :: t =>
    if x = "-hls_flags" then
      match t with
      | y :: t2 => x :: (y ++ "+append_list") :: t2
      | [] => [x, "append_list"]
    else x :: append_hls_flags t

/-- Python truthiness of an optional integer (`if info.series_id:`). -/
def pyTruthyIntOpt : Option Int → Bool
  | none => false
  | some n => n ≠ 0

/-- External interactions of a reuse/resume attempt: the snapshot time, the
probe outcome for the resume re-probe, and whether the freshly spawned resume
process was observed dead during the bounded segment wait (which makes the
handler fall through to a fresh start). -/
structure ReuseEnv where
  now : Int
  probeOutcome : Option (ProbeData × Bool) := none
  resumeDiedImmediately : Bool := false
deriving Repr

/-- Result of `_try_reuse_session`: a response, a fall-through to fresh start
(Python None), or a propagating non-HTTP exception from command building. -/
inductive ReuseOutcome where
  | resp (r : StartResponse)
  | fallthrough
  | raised (msg : String)
deriving DecidableEq, Repr

/-- `_handle_existing_vod_session` -/
def handle_existing_vod_session (env : ReuseEnv) (st : Settings) (plan : PlanEnv)
    (user_agent : Option String) (existing_id url : String) (hw : String)
    (do_probe : Bool) (max_resolution quality : String) (w : World) :
    World × List ProcEffect × ReuseOutcome :=
  match get_session_snapshot env.now existing_id w with
  | (none, w1) => (w1, [], ReuseOutcome.fallthrough)
  | (some snap, w1) =>
    let d := aget snap.output_dir w1.fs
    let segments := isortBy segNameLe ((d.map SessionDir.segs).getD [])
    if snap.process.returncode = none then
      -- Case 1: active session, wait briefly and reuse
      (w1, [], ReuseOutcome.resp (build_session_response existing_id snap d))
    else if segments = [] then
      -- Case 2: dead session with no segments
      let (w2, eff) := stop_session st env.now existing_id true w1
      let w3 := { w2 with reg := { w2.reg with urlIndex := apop url w2.reg.urlIndex } }
      (w3, eff, ReuseOutcome.fallthrough)
    else if snap.seek_offset > 0 then
      -- Case 3: dead session with recorded seek offset, replay cached content
      (w1, [], ReuseOutcome.resp (build_session_response existing_id snap d))
    else
      -- Case 4: dead session without seek offset, append a resume pipeline
      let hls_duration := calc_hls_duration (d.bind SessionDir.playlist) segments.length
      let probe_mi :=
        if do_probe then
          let r := probe_media env.now env.probeOutcome url none none "" w1.probe
          (r.1, r.2.1)
        else (w1.probe, none)
      let w2 := { w1 with probe := probe_mi.1 }
      match build_hls_ffmpeg_cmd plan st url hw snap.output_dir true none probe_mi.2
          max_resolution quality user_agent none with
      | Except.error e => (w2, [], ReuseOutcome.raised e)
      | Except.ok cmd0 =>
        let cmd1 := insertBefore "-i" ["-ss", pyFloatStr hls_duration] cmd0
        let cmd := append_hls_flags cmd1 ++ ["-start_number", toString segments.length]
        let eff := [ProcEffect.spawn cmd]
        match update_session_process existing_id Proc.running w2 with
        | (false, w3) => (w3, eff ++ [ProcEffect.kill existing_id], ReuseOutcome.fallthrough)
        | (true, w3) =>
          if env.resumeDiedImmediately then (w3, eff, ReuseOutcome.fallthrough)
          else (w3, eff,
            ReuseOutcome.resp (build_session_response existing_id snap
              (aget snap.output_dir w3.fs)))

/-- `_try_reuse_session` -/
def try_reuse_session (env : ReuseEnv) (st : Settings) (plan : PlanEnv)
    (user_agent : Option String) (existing_id url : String) (is_vod : Bool)
    (content_type : String) (w : World) : World × List ProcEffect × ReuseOutcome :=
  if is_vod then
    let do_probe :=
      if content_type = "movie" then st.probe_movies
      else if content_type = "series" then st.probe_series
      else false
    handle_existing_vod_session env st plan user_agent existing_id url
      st.transcode_hw do_probe st.max_resolution st.quality w
  else
    match get_session_snapshot env.now existing_id w with
    | (none, w1) => (w1, [], ReuseOutcome.fallthrough)
    | (some snap, w1) =>
      (w1, [], ReuseOutcome.resp (build_session_response existing_id snap
        (aget snap.output_dir w1.fs)))

/-! ## Seek -/

/-- `_SeekSessionInfo` -/
structure SeekSessionInfo where
  url : String
  output_dir : String
  process : Proc
  subtitles : List SubtitleStream
  series_id : Option Int
  episode_id : Option Int
deriving DecidableEq, Repr

/-- `_get_seek_session_info`: None when missing or not VOD. -/
def get_seek_session_info (session_id : String) (w : World) : Option SeekSessionInfo :=
  match aget session_id w.reg.sessions with
  | none => none
  | some s =>
    if ¬s.is_vod then none
    else
      let info : SeekSessionInfo := {
        url := s.url
        output_dir := s.dir
        process := s.process
        subtitles := s.subtitles
        series_id := s.series_id
        episode_id := s.episode_id }
      some info

/-- `_update_seek_session` -/
def update_seek_session (session_id url : String) (p : Proc) (seek_time : Int)
    (w : World) : Bool × World :=
  match aget session_id w.reg.sessions with
  | none => (false, w)
  | some s =>
    let s2 := { s with process := p, seek_offset := seek_time }
    let urlIndex2 := if url ≠ "" then aset url session_id w.reg.urlIndex else w.reg.urlIndex
    let sessions2 := aset session_id s2 w.reg.sessions
    let reg2 : Registry := { sessions := sessions2, urlIndex := urlIndex2 }
    (true, { w with reg := reg2 })

/-- Result of `seek_transcode`. -/
inductive SeekOutcome where
  | smart (session_id : String) (playlist : String)
  | done (segment : Int) (time : Int)
  | httpError (code : Nat) (detail : String)
  | pyError (msg : String)
deriving DecidableEq, Repr

/-- External interactions of a seek. -/
structure SeekEnv where
  st : Settings
  plan : PlanEnv := {}
  user_agent : Option String := none
  probeOutcome : Option (ProbeData × Bool) := none
  playlistReady : Bool := true
  now : Int
deriving Repr

/-- `subtitles or None` -/
def subsOrNone (subs : List SubtitleStream) : Option (List SubtitleStream) :=
  if subs.isEmpty then none else some subs

/-- The non-smart seek path up to command building: drop the playlist, the
segments at or after the target and the extracted subtitles, then re-probe
when the content class asks for it.  Returns the new world and the probe
result used for planning. -/
def seek_prepare (env : SeekEnv) (info : SeekSessionInfo) (segment_num : Int)
    (w : World) : World × Option MediaInfo :=
  let d0 := (aget info.output_dir w.fs).getD {}
  let d1 : SessionDir := { d0 with
    playlist := none
    segs := d0.segs.filter (fun p => decide (p.1 < segment_num))
    subs := [] }
  let wfs := { w with fs := aset info.output_dir d1 w.fs }
  let do_probe := if pyTruthyIntOpt info.series_id then env.st.probe_series
    else env.st.probe_movies
  let probe_mi :=
    if do_probe then
      let r := probe_media env.now env.probeOutcome info.url info.series_id
        info.episode_id "" wfs.probe
      (r.1, r.2.1)
    else (wfs.probe, none)
  ({ wfs with probe := probe_mi.1 }, probe_mi.2)

/-- The descriptor update after a restart seek: set seek_offset in
session.json when the descriptor exists. -/
def seek_persist (output_dir : String) (seek_time : Int) (w : World) : World :=
  match aget output_dir w.fs with
  | some dd =>
    match dd.session_json with
    | some si =>
      let dd2 : SessionDir :=
        { dd with session_json := some { si with seek_offset := seek_time } }
      { w with fs := aset output_dir dd2 w.fs }
    | none => w
  | none => w

/-- The restart arm of `seek_transcode`: kill, clean, re-plan, respawn,
update the session, persist, wait. -/
def seek_restart (env : SeekEnv) (info : SeekSessionInfo) (session_id : String)
    (seek_time segment_num : Int) (w : World) : World × List ProcEffect × SeekOutcome :=
  let eff1 := [ProcEffect.kill session_id]
  let pr := seek_prepare env info segment_num w
  match build_hls_ffmpeg_cmd env.plan env.st info.url env.st.transcode_hw info.output_dir
      true (subsOrNone info.subtitles) pr.2 env.st.max_resolution env.st.quality
      env.user_agent none with
  | Except.error e => (pr.1, eff1, SeekOutcome.pyError e)
  | Except.ok cmd0 =>
    let cmd1 := insertBefore "-i" ["-ss", pyFloatStr seek_time] cmd0
    let cmd2 := insertBefore "-f" ["-output_ts_offset", pyFloatStr (-seek_time)] cmd1
    let cmd := cmd2 ++ ["-start_number", toString segment_num]
    let eff2 := eff1 ++ [ProcEffect.spawn cmd]
    match update_seek_session session_id info.url Proc.running seek_time pr.1 with
    | (false, w2) =>
      (w2, eff2 ++ [ProcEffect.kill session_id],
        SeekOutcome.httpError 404 "Session disappeared during seek")
    | (true, w2) =>
      let w3 := seek_persist info.output_dir seek_time w2
      if env.playlistReady then (w3, eff2, SeekOutcome.done segment_num seek_time)
      else (w3, eff2, SeekOutcome.httpError 500 "Seek transcode timed out waiting for playlist")

/-- The smart arm of `seek_transcode`: only the recorded seek offset changes
and the playlist is regenerated from the already-materialized segments. -/
def seek_smart (session_id : String) (info : SeekSessionInfo) (seek_time segment_num : Int)
    (w : World) : World × List ProcEffect × SeekOutcome :=
  let d0 := (aget info.output_dir w.fs).getD {}
  let sessions2 :=
    match aget session_id w.reg.sessions with
    | some s => aset session_id { s with seek_offset := seek_time } w.reg.sessions
    | none => w.reg.sessions
  let d1 := regenerate_playlist d0 segment_num
  let reg2 : Registry := { w.reg with sessions := sessions2 }
  let w2 := { w with reg := reg2, fs := aset info.output_dir d1 w.fs }
  (w2, [], SeekOutcome.smart session_id ("/transcode/" ++ session_id ++ "/stream.m3u8"))

/-- `seek_transcode` -/
def seek_transcode (env : SeekEnv) (session_id : String) (seek_time : Int)
    (w : World) : World × List ProcEffect × SeekOutcome :=
  match get_seek_session_info session_id w with
  | none => (w, [], SeekOutcome.httpError 404 "Session not found or not VOD")
  | some info =>
    let segment_num := pyIntDiv seek_time get_hls_segment_duration
    let d0 := (aget info.output_dir w.fs).getD {}
    let smartHit :=
      match aget segment_num d0.segs with
      | some size => decide (MIN_SEGMENT_SIZE_BYTES < size)
      | none => false
    if smartHit then seek_smart session_id info seek_time segment_num w
    else seek_restart env info session_id seek_time segment_num w

/-! ## Fresh start -/

/-- Result of `_do_start_transcode` / `start_transcode`. -/
inductive StartOutcome where
  | ok (resp : StartResponse)
  | httpError (code : Nat) (detail : String)
  | pyError (msg : String)
deriving DecidableEq, Repr

/-- External interactions of one `_do_start_transcode` attempt: the fresh
session id and output directory, the probe outcome, the registration clock,
the playlist-readiness outcome of the bounded wait, and the clock when a
failed wait returns. -/
structure StartEnv where
  session_id : String
  output_dir : String
  probeOutcome : Option (ProbeData × Bool) := none
  tReg : Int
  playlistReady : Bool := true
  tFail : Int := 0
deriving Repr

/-- The head of `_do_start_transcode`: create the output directory and probe
when the content class asks for it. -/
def start_probe_step (env : StartEnv) (do_probe : Bool) (url : String)
    (series_id episode_id : Option Int) (series_name : String) (w : World) :
    World × Option MediaInfo × List SubtitleStream :=
  let w0 := { w with fs := aset env.output_dir {} w.fs }  -- mkdtemp
  let probed :=
    if do_probe then
      let r := probe_media env.tReg env.probeOutcome url series_id episode_id series_name w0.probe
      (r.1, r.2.1, r.2.2)
    else (w0.probe, none, [])
  ({ w0 with probe := probed.1 }, probed.2.1, probed.2.2)

/-- The descriptor write of `_do_start_transcode` (VOD sessions only). -/
def start_persist (is_vod : Bool) (si : SessionInfo) (output_dir : String)
    (w : World) : World :=
  if is_vod then
    match aget output_dir w.fs with
    | some dd => { w with fs := aset output_dir { dd with session_json := some si } w.fs }
    | none => w
  else w

/-- `_do_start_transcode` -/
def do_start_transcode (env : StartEnv) (st : Settings) (plan : PlanEnv)
    (user_agent : Option String) (url content_type : String)
    (series_id episode_id : Option Int) (old_seek_offset : Int) (series_name : String)
    (deinterlace_fallback : Option Bool) (username source_id : String) (w : World) :
    World × List ProcEffect × StartOutcome :=
  let is_vod := content_type = "movie" ∨ content_type = "series"
  let do_probe :=
    if content_type = "movie" then st.probe_movies
    else if content_type = "series" then st.probe_series
    else if content_type = "live" then st.probe_live
    else false
  let output_dir := env.output_dir
  let ps := start_probe_step env do_probe url series_id episode_id series_name w
  let media_info := ps.2.1
  let subtitles := ps.2.2
  match build_hls_ffmpeg_cmd plan st url st.transcode_hw output_dir is_vod
      (some subtitles) media_info st.max_resolution st.quality user_agent
      deinterlace_fallback with
  | Except.error e => (ps.1, [], StartOutcome.pyError e)
  | Except.ok cmd0 =>
    let cmd := if old_seek_offset > 0
      then insertBefore "-i" ["-ss", pyFloatStr old_seek_offset] cmd0 else cmd0
    let eff := [ProcEffect.spawn cmd]
    let total_duration := (media_info.map MediaInfo.duration).getD 0
    let s : Session := {
      dir := output_dir
      process := Proc.running
      started := env.tReg
      url := url
      is_vod := is_vod
      last_access := env.tReg
      subtitles := subtitles
      duration := total_duration
      seek_offset := old_seek_offset
      series_id := series_id
      episode_id := episode_id
      username := username
      source_id := source_id }
    let reg2 : Registry := {
      sessions := aset env.session_id s ps.1.reg.sessions
      urlIndex := aset url env.session_id ps.1.reg.urlIndex }
    let w2 := { ps.1 with reg := reg2 }
    let si : SessionInfo := {
      session_id := env.session_id
      url := url
      is_vod := true
      started := some env.tReg
      subtitles := subtitles
      duration := total_duration
      seek_offset := old_seek_offset
      series_id := series_id
      episode_id := episode_id
      username := username
      source_id := source_id
      probe := media_info.map (fun mi => {
        video_codec := mi.video_codec
        audio_codec := mi.audio_codec
        pix_fmt := mi.pix_fmt
        audio_channels := mi.audio_channels
        audio_sample_rate := mi.audio_sample_rate
        subtitle_codecs := mi.subtitle_codecs
        height := mi.height
        video_bitrate := mi.video_bitrate
        interlaced := mi.interlaced }) }
    let w3 := start_persist is_vod si output_dir w2
    if env.playlistReady then
      (w3, eff, StartOutcome.ok {
        session_id := env.session_id
        playlist := "/transcode/" ++ env.session_id ++ "/stream.m3u8"
        subtitles := build_subtitle_tracks env.session_id subtitles
        duration := total_duration
        seek_offset := old_seek_offset })
    else
      let stopped := stop_session st env.tFail env.session_id false w3
      (stopped.1, eff ++ stopped.2,
        StartOutcome.httpError 500 "Transcode failed - check server logs for details")

/-- All external interactions of one `start_transcode` call. -/
structure StartCallEnv where
  st : Settings
  plan : PlanEnv := {}
  user_agent : Option String := none
  now : Int
  reuse : ReuseEnv
  attempt1 : StartEnv
  attempt2 : StartEnv
deriving Repr

/-- `start_transcode`: limits, reuse of a valid existing session, cleanup of
an invalid one, then a fresh start retried exactly once for episodic content
after invalidating the episode's probe cache entry. -/
def start_transcode (env : StartCallEnv) (url content_type : String)
    (series_id episode_id : Option Int) (series_name : String)
    (deinterlace_fallback : Option Bool) (username source_id : String)
    (user_max_streams source_max_streams : Nat) (w : World) :
    World × List ProcEffect × StartOutcome :=
  let limits :=
    if username ≠ "" then
      enforce_stream_limits env.st env.now username source_id
        user_max_streams source_max_streams w
    else (w, [], none)
  match limits with
  | (w1, eff1, some err) => (w1, eff1, StartOutcome.httpError 429 err)
  | (w1, eff1, none) =>
    let is_vod := content_type = "movie" ∨ content_type = "series"
    let existing := get_existing_session env.st env.now url w1.reg
    let existing_id := existing.1
    let is_valid := existing.2.1
    let old_seek_offset := existing.2.2
    let reuseStep : World × List ProcEffect × Option StartOutcome :=
      match existing_id with
      | some eid =>
        if is_valid then
          match try_reuse_session env.reuse env.st env.plan env.user_agent eid url
              is_vod content_type w1 with
          | (w2, eff2, ReuseOutcome.resp r) => (w2, eff1 ++ eff2, some (StartOutcome.ok r))
          | (w2, eff2, ReuseOutcome.raised msg) => (w2, eff1 ++ eff2, some (StartOutcome.pyError msg))
          | (w2, eff2, ReuseOutcome.fallthrough) => (w2, eff1 ++ eff2, none)
        else (w1, eff1, none)
      | none => (w1, eff1, none)
    match reuseStep with
    | (w2, eff2, some out) => (w2, eff2, out)
    | (w2, eff2, none) =>
      let cleaned :=
        match existing_id with
        | some eid => cleanup_invalid_session env.st env.now url eid w2
        | none => (w2, [])
      let w3 := cleaned.1
      let eff3 := eff2 ++ cleaned.2
      match do_start_transcode env.attempt1 env.st env.plan env.user_agent url content_type
          series_id episode_id old_seek_offset series_name deinterlace_fallback
          username source_id w3 with
      | (w4, eff4, StartOutcome.httpError code detail) =>
        match series_id with
        | none => (w4, eff3 ++ eff4, StartOutcome.httpError code detail)
        | some sid =>
          let w5 := { w4 with probe := invalidate_series_probe_cache sid episode_id w4.probe }
          match do_start_transcode env.attempt2 env.st env.plan env.user_agent url content_type
              series_id episode_id old_seek_offset series_name deinterlace_fallback
              username source_id w5 with
          | (w6, eff6, out2) => (w6, eff3 ++ eff4 ++ eff6, out2)
      | (w4, eff4, out) => (w4, eff3 ++ eff4, out)

/-! ## The URL-index invariant (C1) -/

/-- Every URL index entry points to an existing session. -/
def UrlIndexOk (r : Registry) : Prop :=
  ∀ p ∈ r.urlIndex, (aget p.2 r.sessions).isSome

/-- Every URL index entry points to a session registered under that URL. -/
def UrlsMatch (r : Registry) : Prop :=
  ∀ p ∈ r.urlIndex, ∀ s, aget p.2 r.sessions = some s → s.url = p.1

/-- Every registered session has a nonempty source URL (true of every session
the orchestrator creates: play requests carry a stream URL and recovery
discards descriptors without one). -/
def UrlsNonempty (r : Registry) : Prop :=
  ∀ p ∈ r.sessions, p.2.url ≠ ""

/-- The registry well-formedness invariant: the URL index only references
existing sessions, each entry references the session registered under that
URL, both tables have unique keys, and session URLs are nonempty. -/
def RegistryInv (r : Registry) : Prop :=
  UrlIndexOk r ∧ UrlsMatch r ∧ (akeys r.sessions).Nodup ∧ (akeys r.urlIndex).Nodup ∧
    UrlsNonempty r

theorem registryInv_empty : RegistryInv {} := by
  refine ⟨?_, ?_, ?_, ?_, ?_⟩ <;> simp [UrlIndexOk, UrlsMatch, UrlsNonempty, Registry, akeys]

theorem mem_apop_key_eq_false {K V : Type} [DecidableEq K] {k : K} {l : List (K × V)}
    {p : K × V} (hnd : (akeys l).Nodup) (h : p ∈ apop k l) (hk : p.1 = k) : False := by
  induction l with
  | nil => simp [apop] at h
  | cons q t ih =>
    simp only [akeys_cons, List.nodup_cons] at hnd
    by_cases hq : q.1 = k
    · simp only [apop, hq, if_true] at h
      exact hnd.1 (hq ▸ hk ▸ List.mem_map_of_mem Prod.fst h)
    · simp only [apop, hq, if_false] at h
      rcases List.mem_cons.mp h with h1 | h1
      · exact hq ((congrArg Prod.fst h1).symm.trans hk)
      · exact ih hnd.2 h1

theorem apop_eq_of_not_mem {K V : Type} [DecidableEq K] {k : K} {l : List (K × V)}
    (h : k ∉ akeys l) : apop k l = l := by
  induction l with
  | nil => rfl
  | cons q t ih =>
    simp only [akeys_cons, List.mem_cons] at h
    push_neg at h
    simp only [apop, Ne.symm h.1, if_false]
    rw [ih h.2]

/-- Updating an existing session in place without changing its URL preserves
the invariant. -/
theorem registryInv_update_same_url {r : Registry} {sid : String} {s s2 : Session}
    (hInv : RegistryInv r) (hget : aget sid r.sessions = some s) (hurl : s2.url = s.url) :
    RegistryInv { r with sessions := aset sid s2 r.sessions } := by
  obtain ⟨h1, h2, h3, h4, h5⟩ := hInv
  refine ⟨?_, ?_, ?_, h4, ?_⟩
  · intro p hp
    exact aget_isSome_aset sid p.2 s2 r.sessions (h1 p hp)
  · intro p hp s3 hs3
    by_cases hk : p.2 = sid
    · rw [hk, aget_aset_self] at hs3
      cases hs3
      rw [hurl]
      exact h2 p hp s (hk ▸ hget)
    · rw [aget_aset_ne s2 r.sessions hk] at hs3
      exact h2 p hp s3 hs3
  · exact nodup_akeys_aset sid s2 r.sessions h3
  · intro p hp
    rcases mem_aset hp with h | h
    · subst h
      simp only
      rw [hurl]
      exact h5 (sid, s) (aget_some_mem hget)
    · exact h5 p h

/-- Inserting a session under a fresh id without touching the index preserves
the invariant (no index entry can reference the fresh id). -/
theorem registryInv_insert_fresh {r : Registry} {sid : String} {s : Session}
    (hInv : RegistryInv r) (hget : aget sid r.sessions = none) (hurl : s.url ≠ "") :
    RegistryInv { r with sessions := aset sid s r.sessions } := by
  obtain ⟨h1, h2, h3, h4, h5⟩ := hInv
  refine ⟨?_, ?_, ?_, h4, ?_⟩
  · intro p hp
    exact aget_isSome_aset sid p.2 s r.sessions (h1 p hp)
  · intro p hp s3 hs3
    by_cases hk : p.2 = sid
    · exfalso
      have := h1 p hp
      rw [hk, hget] at this
      simp at this
    · rw [aget_aset_ne s r.sessions hk] at hs3
      exact h2 p hp s3 hs3
  · exact nodup_akeys_aset sid s r.sessions h3
  · intro p hp
    rcases mem_aset hp with h | h
    · subst h; exact hurl
    · exact h5 p h

/-- Pointing the index entry for a session's URL at that session preserves the
invariant. -/
theorem registryInv_set_index {r : Registry} {sid : String} {s : Session}
    (hInv : RegistryInv r) (hget : aget sid r.sessions = some s) :
    RegistryInv { r with urlIndex := aset s.url sid r.urlIndex } := by
  obtain ⟨h1, h2, h3, h4, h5⟩ := hInv
  refine ⟨?_, ?_, h3, ?_, h5⟩
  · intro p hp
    rcases mem_aset hp with h | h
    · subst h
      simp [hget]
    · exact h1 p h
  · intro p hp s3 hs3
    rcases mem_aset hp with h | h
    · subst h
      simp only at hs3
      rw [hget] at hs3
      cases hs3
      rfl
    · exact h2 p h s3 hs3
  · exact nodup_akeys_aset s.url sid r.urlIndex h4

/-- Removing a session together with the index entry for its URL preserves
the invariant. -/
theorem registryInv_remove_pair {r : Registry} {sid : String} {s : Session}
    (hInv : RegistryInv r) (hget : aget sid r.sessions = some s) :
    RegistryInv { sessions := apop sid r.sessions, urlIndex := apop s.url r.urlIndex } := by
  obtain ⟨h1, h2, h3, h4, h5⟩ := hInv
  refine ⟨?_, ?_, ?_, ?_, ?_⟩
  · intro p hp
    have hpmem := mem_apop hp
    by_cases hk : p.2 = sid
    · exfalso
      have hurl : s.url = p.1 := h2 p hpmem s (hk ▸ hget)
      exact mem_apop_key_eq_false h4 hp (hurl ▸ rfl)
    · rw [aget_apop_ne r.sessions hk]
      exact h1 p hpmem
  · intro p hp s3 hs3
    have hpmem := mem_apop hp
    by_cases hk : p.2 = sid
    · exfalso
      have hurl : s.url = p.1 := h2 p hpmem s (hk ▸ hget)
      exact mem_apop_key_eq_false h4 hp (hurl ▸ rfl)
    · rw [aget_apop_ne r.sessions hk] at hs3
      exact h2 p hpmem s3 hs3
  · exact nodup_akeys_apop sid r.sessions h3
  · exact nodup_akeys_apop s.url r.urlIndex h4
  · intro p hp
    exact h5 p (mem_apop hp)

/-- Dropping an index entry alone preserves the invariant. -/
theorem registryInv_pop_index {r : Registry} (u : String) (hInv : RegistryInv r) :
    RegistryInv { r with urlIndex := apop u r.urlIndex } := by
  obtain ⟨h1, h2, h3, h4, h5⟩ := hInv
  exact ⟨fun p hp => h1 p (mem_apop hp), fun p hp => h2 p (mem_apop hp), h3,
    nodup_akeys_apop u r.urlIndex h4, h5⟩

theorem not_mem_of_aget_none {K V : Type} [DecidableEq K] {k : K} {l : List (K × V)}
    (h : aget k l = none) : k ∉ akeys l := by
  induction l with
  | nil => simp [akeys]
  | cons p t ih =>
    by_cases hk : p.1 = k
    · simp [aget, hk] at h
    · simp only [aget, hk, if_false] at h
      simp only [akeys_cons, List.mem_cons]
      push_neg
      exact ⟨Ne.symm hk, ih h⟩

theorem stop_session_inv (st : Settings) (now : Int) (sid : String) (force : Bool)
    (w : World) (hInv : RegistryInv w.reg) :
    RegistryInv (stop_session st now sid force w).1.reg := by
  unfold stop_session
  cases hget : aget sid w.reg.sessions with
  | none => exact hInv
  | some s =>
    simp only
    split_ifs with h1 h2 h3 h4 h5 h6
    all_goals first
      | exact hInv
      | exact registryInv_update_same_url hInv hget rfl
      | exact registryInv_remove_pair hInv hget
      | (exfalso
         apply hInv.2.2.2.2 (sid, s) (aget_some_mem hget)
         by_contra hne
         simp_all)

theorem enforce_source_step_inl_inv {st : Settings} {now : Int}
    {username source_id : String} {source_max : Nat} {w : World} {we : World × List ProcEffect}
    (hInv : RegistryInv w.reg)
    (h : enforce_source_step st now username source_id source_max w = Sum.inl we) :
    RegistryInv we.1.reg := by
  unfold enforce_source_step at h
  split_ifs at h
  · split at h
    · cases h
      exact stop_session_inv st now _ true w hInv
    · cases h
  · cases h
    exact hInv
  · cases h
    exact hInv

theorem enforce_stream_limits_inv (st : Settings) (now : Int) (username source_id : String)
    (user_max source_max : Nat) (w : World) (hInv : RegistryInv w.reg) :
    RegistryInv (enforce_stream_limits st now username source_id user_max source_max w).1.reg := by
  unfold enforce_stream_limits
  cases hstep : enforce_source_step st now username source_id source_max w with
  | inr err => exact hInv
  | inl we =>
    obtain ⟨w1, eff1⟩ := we
    have h1 : RegistryInv w1.reg := enforce_source_step_inl_inv hInv hstep
    simp only
    split_ifs with hu1 hu2
    · split
      · exact stop_session_inv st now _ true w1 h1
      · exact h1
    · exact h1
    · exact h1

theorem monitor_resume_inv (rc : Int) (elapsed : Int) (sid url : String) (w : World)
    (hInv : RegistryInv w.reg)
    (hmatch : ∀ s, aget sid w.reg.sessions = some s → s.url = url) :
    RegistryInv (monitor_resume_ffmpeg rc elapsed sid url w).reg := by
  unfold monitor_resume_ffmpeg
  split_ifs with h1 h2
  · simp only
    cases hget : aget sid w.reg.sessions with
    | none =>
      simp only
      rw [apop_eq_of_not_mem (not_mem_of_aget_none hget)]
      exact registryInv_pop_index url hInv
    | some s =>
      simp only
      rw [← hmatch s hget]
      exact registryInv_remove_pair hInv hget
  · exact hInv
  · exact hInv

theorem get_seek_session_info_spec {sid : String} {w : World} {info : SeekSessionInfo}
    (h : get_seek_session_info sid w = some info) :
    ∃ s, aget sid w.reg.sessions = some s ∧ s.is_vod = true ∧ info.url = s.url ∧
      info.output_dir = s.dir := by
  unfold get_seek_session_info at h
  cases hget : aget sid w.reg.sessions with
  | none => rw [hget] at h; cases h
  | some s =>
    rw [hget] at h
    by_cases hv : s.is_vod
    · simp only [hv, not_true_eq_false, if_false] at h
      cases h
      exact ⟨s, rfl, hv, rfl, rfl⟩
    · simp [hv] at h

theorem update_seek_session_inv (sid url : String) (p : Proc) (t : Int) (w : World)
    (hInv : RegistryInv w.reg)
    (hmatch : ∀ s, aget sid w.reg.sessions = some s → s.url = url) :
    RegistryInv (update_seek_session sid url p t w).2.reg := by
  unfold update_seek_session
  cases hget : aget sid w.reg.sessions with
  | none => exact hInv
  | some s =>
    have hql := hmatch s hget
    subst hql
    have hInv1 : RegistryInv { w.reg with
        sessions := aset sid { s with process := p, seek_offset := t } w.reg.sessions } :=
      registryInv_update_same_url hInv hget rfl
    by_cases hu : s.url ≠ ""
    · rw [if_pos hu]
      have hget2 : aget sid (aset sid { s with process := p, seek_offset := t }
          w.reg.sessions) = some { s with process := p, seek_offset := t } :=
        aget_aset_self sid _ w.reg.sessions
      exact @registryInv_set_index _ sid { s with process := p, seek_offset := t } hInv1 hget2
    · rw [if_neg hu]
      exact hInv1


theorem seek_persist_reg (output_dir : String) (t : Int) (w : World) :
    (seek_persist output_dir t w).reg = w.reg := by
  unfold seek_persist
  split
  · split
    · rfl
    · rfl
  · rfl

theorem seek_smart_inv (session_id : String) (info : SeekSessionInfo)
    (seek_time segment_num : Int) (w : World) (hInv : RegistryInv w.reg) :
    RegistryInv (seek_smart session_id info seek_time segment_num w).1.reg := by
  unfold seek_smart
  cases hget : aget session_id w.reg.sessions with
  | none => exact hInv
  | some s => exact registryInv_update_same_url hInv hget rfl


theorem seek_restart_inv (env : SeekEnv) (info : SeekSessionInfo) (session_id : String)
    (seek_time segment_num : Int) (w : World) (hInv : RegistryInv w.reg)
    (hmatch : ∀ s, aget session_id w.reg.sessions = some s → s.url = info.url) :
    RegistryInv (seek_restart env info session_id seek_time segment_num w).1.reg := by
  simp only [seek_restart]
  cases hb : build_hls_ffmpeg_cmd env.plan env.st info.url env.st.transcode_hw
      info.output_dir true (subsOrNone info.subtitles)
      (seek_prepare env info segment_num w).2 env.st.max_resolution env.st.quality
      env.user_agent none with
  | error e => exact hInv
  | ok cmd0 =>
    have hupd := update_seek_session_inv session_id info.url Proc.running seek_time
      (seek_prepare env info segment_num w).1 hInv hmatch
    cases hu : update_seek_session session_id info.url Proc.running seek_time
        (seek_prepare env info segment_num w).1 with
    | mk b w2 =>
      rw [hu] at hupd
      cases b
      case false => exact hupd
      case true =>
        cases hr : env.playlistReady
        case false =>
          show RegistryInv (seek_persist info.output_dir seek_time w2).reg
          rw [seek_persist_reg]
          exact hupd
        case true =>
          show RegistryInv (seek_persist info.output_dir seek_time w2).reg
          rw [seek_persist_reg]
          exact hupd

theorem seek_transcode_inv (env : SeekEnv) (session_id : String) (seek_time : Int)
    (w : World) (hInv : RegistryInv w.reg) :
    RegistryInv (seek_transcode env session_id seek_time w).1.reg := by
  simp only [seek_transcode]
  split
  next => exact hInv
  next info heq =>
    obtain ⟨s0, hget0, _, hurl0, _⟩ := get_seek_session_info_spec heq
    split
    next => exact seek_smart_inv session_id info seek_time _ w hInv
    next =>
      refine seek_restart_inv env info session_id seek_time _ w hInv ?_
      intro s hs
      rw [hget0] at hs
      cases hs
      exact hurl0.symm

theorem registryInv_register {r : Registry} {sid url : String} {s : Session}
    (hInv : RegistryInv r) (hfresh : aget sid r.sessions = none) (hsu : s.url = url)
    (hurl : url ≠ "") :
    RegistryInv { sessions := aset sid s r.sessions, urlIndex := aset url sid r.urlIndex } := by
  subst hsu
  exact registryInv_set_index (registryInv_insert_fresh hInv hfresh hurl)
    (aget_aset_self sid s r.sessions)

theorem start_persist_reg (is_vod : Bool) (si : SessionInfo) (output_dir : String)
    (w : World) : (start_persist is_vod si output_dir w).reg = w.reg := by
  unfold start_persist
  split
  · split
    · rfl
    · rfl
  · rfl

theorem do_start_transcode_inv (env : StartEnv) (st : Settings) (plan : PlanEnv)
    (user_agent : Option String) (url content_type : String)
    (series_id episode_id : Option Int) (old_seek_offset : Int) (series_name : String)
    (deinterlace_fallback : Option Bool) (username source_id : String) (w : World)
    (hInv : RegistryInv w.reg) (hfresh : aget env.session_id w.reg.sessions = none)
    (hurl : url ≠ "") :
    RegistryInv (do_start_transcode env st plan user_agent url content_type series_id
      episode_id old_seek_offset series_name deinterlace_fallback username source_id
      w).1.reg := by
  simp only [do_start_transcode]
  cases hb : build_hls_ffmpeg_cmd plan st url st.transcode_hw env.output_dir
      (content_type = "movie" ∨ content_type = "series")
      (some (start_probe_step env
        (if content_type = "movie" then st.probe_movies
         else if content_type = "series" then st.probe_series
         else if content_type = "live" then st.probe_live
         else false) url series_id episode_id series_name w).2.2)
      (start_probe_step env
        (if content_type = "movie" then st.probe_movies
         else if content_type = "series" then st.probe_series
         else if content_type = "live" then st.probe_live
         else false) url series_id episode_id series_name w).2.1
      st.max_resolution st.quality user_agent deinterlace_fallback with
  | error e => exact hInv
  | ok cmd0 =>
    cases hr : env.playlistReady
    case false =>
      refine stop_session_inv st env.tFail env.session_id false _ ?_
      show RegistryInv (start_persist _ _ env.output_dir _).reg
      rw [start_persist_reg]
      exact registryInv_register hInv hfresh rfl hurl
    case true =>
      show RegistryInv (start_persist _ _ env.output_dir _).reg
      rw [start_persist_reg]
      exact registryInv_register hInv hfresh rfl hurl

theorem recover_dir_inv (now ct : Int) (w : World) (d : RecoverDirInput)
    (hInv : RegistryInv w.reg)
    (hfresh : ∀ info, d.parsed = some info → aget info.session_id w.reg.sessions = none) :
    RegistryInv (recover_dir now ct w d).reg := by
  simp only [recover_dir]
  split_ifs with h1 h2 h3 h4
  all_goals try exact hInv
  · split
    next => exact hInv
    next info heq =>
      split
      next => exact hInv
      next hg =>
        push_neg at hg
        have hu : info.url ≠ "" := hg.2
        have hf := hfresh info heq
        split
        next existing_id heq2 =>
          split
          next => exact registryInv_register hInv hf rfl hu
          next => exact registryInv_insert_fresh hInv hf hu
        next heq2 => exact registryInv_register hInv hf rfl hu

theorem recover_dir_keys (now ct : Int) (w : World) (d : RecoverDirInput) (k : String)
    (hk : k ∈ akeys (recover_dir now ct w d).reg.sessions) :
    k ∈ akeys w.reg.sessions ∨ ∃ info, d.parsed = some info ∧ k = info.session_id := by
  simp only [recover_dir] at hk
  split_ifs at hk
  all_goals try exact Or.inl hk
  split at hk
  next => exact Or.inl hk
  next info heq =>
    split at hk
    next => exact Or.inl hk
    next =>
      rw [akeys_aset] at hk
      split_ifs at hk with hmem
      · exact Or.inl hk
      · rcases List.mem_append.mp hk with h | h
        · exact Or.inl h
        · simp only [List.mem_singleton] at h
          exact Or.inr ⟨info, heq, h⟩

/-- Freshness of the recovered descriptors' session ids: none collides with a
registered session, and no two descriptors share an id (session ids are
uuid4 values, one per directory). -/
def RecoverFresh (dirs : List RecoverDirInput) (r : Registry) : Prop :=
  (∀ d ∈ dirs, ∀ info, d.parsed = some info → info.session_id ∉ akeys r.sessions) ∧
  dirs.Pairwise (fun d1 d2 => ∀ i1 i2, d1.parsed = some i1 → d2.parsed = some i2 →
    i1.session_id ≠ i2.session_id)

theorem cleanup_and_recover_inv (st : Settings) (now : Int) (dirs : List RecoverDirInput)
    (w : World) (hInv : RegistryInv w.reg) (hf : RecoverFresh dirs w.reg) :
    RegistryInv (cleanup_and_recover_sessions st now dirs w).reg := by
  unfold cleanup_and_recover_sessions
  generalize get_vod_cache_timeout st = ct
  induction dirs generalizing w with
  | nil => exact hInv
  | cons d t ih =>
    obtain ⟨hf1, hf2⟩ := hf
    simp only [List.foldl_cons]
    have hfd : ∀ info, d.parsed = some info → aget info.session_id w.reg.sessions = none :=
      fun info hp => aget_eq_none_of_not_mem (hf1 d (List.mem_cons_self d t) info hp)
    have h1 := recover_dir_inv now ct w d hInv hfd
    refine ih (recover_dir now ct w d) h1 ⟨?_, (List.pairwise_cons.mp hf2).2⟩
    intro d2 hd2 info2 hp2 hmem
    rcases recover_dir_keys now ct w d info2.session_id hmem with hold | ⟨i1, hpi1, hkeq⟩
    · exact hf1 d2 (List.mem_cons_of_mem _ hd2) info2 hp2 hold
    · exact (List.pairwise_cons.mp hf2).1 d2 hd2 i1 info2 hpi1 hp2 hkeq.symm

/-! ## Claim theorems: concrete instances, auxiliary lemmas, the claims -/


/-! ## Concrete instances used by the claim witnesses and counterexamples -/

def stDflt : Settings := {}

def sess10 : Session := {
  dir := "d10"
  process := Proc.running
  started := 0
  url := "u10"
  is_vod := true
  last_access := 0 }

def w10 : World := {
  reg := { sessions := [("s10", sess10)], urlIndex := [("u10", "s10")] } }

def sess7 : Session := {
  dir := "d7"
  process := Proc.exited 1
  started := 0
  url := "u7"
  is_vod := true
  last_access := 0 }

def w7 : World := {
  reg := { sessions := [("s7", sess7)], urlIndex := [("u7", "s7")] }
  fs := [("d7", {})] }

def infoA : SessionInfo := { session_id := "a", url := "u", is_vod := true }

def infoB : SessionInfo := { session_id := "b", url := "u", is_vod := true }

def dirA : RecoverDirInput := { name := "dA", mtime := 100, parsed := some infoA }

def dirB : RecoverDirInput := { name := "dB", mtime := 200, parsed := some infoB }

def miCopy : MediaInfo := {
  video_codec := "h264"
  audio_codec := "aac"
  pix_fmt := "yuv420p"
  audio_channels := 2
  audio_sample_rate := 48000
  height := 720 }

def dataH0 : ProbeData := {
  streams := [{ codec_name := "h264", codec_type := "video", height := 0 }] }

/-! ## C10 -/

/-- C10: a non-forced stop of a session whose last_access is under five
seconds old is a complete no-op: the registry, the URL index, the filesystem
and the process are all untouched and no kill is issued. -/
theorem stop_session_recent_noop (st : Settings) (now : Int) (sid : String)
    (w : World) (s : Session) (hget : aget sid w.reg.sessions = some s)
    (hrecent : now - s.last_access < 5) :
    stop_session st now sid false w = (w, []) := by
  unfold stop_session
  rw [hget]
  simp [hrecent]

theorem stop_session_recent_noop_witness :
    stop_session stDflt 3 "s10" false w10 = (w10, []) :=
  stop_session_recent_noop stDflt 3 "s10" w10 sess10 (by decide) (by decide)

/-! ## C7 -/

/-- C7 counterexample: a resume process that exits cleanly (returncode 0)
within the quick-failure threshold leaves the session, its URL index entry
and its output directory fully in place. -/
theorem monitor_resume_clean_exit_retained :
    monitor_resume_ffmpeg 0 5 "s7" "u7" w7 = w7 ∧
    akeys w7.reg.sessions = ["s7"] ∧ (5 : Int) < QUICK_FAILURE_THRESHOLD_SEC := by
  decide

/-- C7 (amended): for a resume process that exits with a NONZERO code within
the quick-failure threshold, the session and its URL index entry are removed
from the registry and its output directory is deleted. -/
theorem monitor_resume_quick_failure_teardown (rc elapsed : Int) (sid url : String)
    (w : World) (s : Session) (hrc : rc ≠ 0)
    (helapsed : elapsed < QUICK_FAILURE_THRESHOLD_SEC)
    (hget : aget sid w.reg.sessions = some s) :
    monitor_resume_ffmpeg rc elapsed sid url w =
      { w with
        reg := { sessions := apop sid w.reg.sessions, urlIndex := apop url w.reg.urlIndex }
        fs := apop s.dir w.fs } := by
  unfold monitor_resume_ffmpeg
  rw [if_pos hrc, if_pos helapsed, hget]

theorem monitor_resume_quick_failure_teardown_witness :
    monitor_resume_ffmpeg 1 5 "s7" "u7" w7 =
      { w7 with
        reg := { sessions := apop "s7" w7.reg.sessions
                 urlIndex := apop "u7" w7.reg.urlIndex }
        fs := apop sess7.dir w7.fs } :=
  monitor_resume_quick_failure_teardown 1 5 "s7" "u7" w7 sess7 (by decide) (by decide)
    (by decide)

/-! ## C5 -/

/-- C5 (code bug): two recovered descriptors share URL "u", both with seek
offset 0, and the second directory has the more recent mtime (200 > 100); the
spec says the URL index must end up at the newer one ("b"), but the sweep
leaves it at the first one recovered ("a"), because the code compares the
candidate mtime against the previously recovered session's last_access
(which it just set to the current time), not against its directory mtime. -/
theorem recovery_url_index_prefers_first :
    (cleanup_and_recover_sessions stDflt 1000 [dirA, dirB] {}).reg.urlIndex = [("u", "a")] ∧
    akeys (cleanup_and_recover_sessions stDflt 1000 [dirA, dirB] {}).reg.sessions = ["a", "b"] ∧
    dirA.mtime < dirB.mtime ∧ infoA.seek_offset = 0 ∧ infoB.seek_offset = 0 := by
  decide

/-! ## C8 -/

theorem build_video_args_vaapi_missing (env : PlanEnv) (hw : String) (d u : Bool)
    (maxr q : String) (hdr : Bool)
    (hneed : (parse_hw hw).1 = "vaapi" ∨ (parse_hw hw).2 = "vaapi")
    (hdev : env.vaapiDevice = "") :
    build_video_args env false hw d u maxr q hdr =
      Except.error ("Hardware acceleration '" ++ hw ++
        "' requires VAAPI but no Intel/AMD GPU was detected. " ++
        "Select a different hardware option in settings.") := by
  unfold build_video_args
  simp only [Bool.false_eq_true, if_false]
  cases hp : parse_hw hw with
  | mk e f =>
    rw [hp] at hneed
    simp only
    rw [if_pos ⟨hneed, hdev⟩]

/-- C8 counterexample: with hw policy "vaapi" and no VAAPI device detected,
planning for stream-copyable media succeeds (returns an argument list) instead
of raising the configuration error, because the copy decision short-circuits
the device check. -/
theorem vaapi_missing_device_copy_ok :
    ((build_hls_ffmpeg_cmd {} stDflt "u8" "vaapi" "/t8" true none (some miCopy)
        "1080p" "high" none none).isOk = true) ∧
    (parse_hw "vaapi").1 = "vaapi" ∧ PlanEnv.vaapiDevice {} = "" := by
  decide

/-- C8 (amended): when the selected policy requires VAAPI (encoder or
fallback is "vaapi"), no device was detected, and the video stream is NOT
stream-copied, planning fails with the configuration RuntimeError. -/
theorem vaapi_missing_device_error (env : PlanEnv) (st : Settings)
    (url hw out : String) (is_vod : Bool) (subs : Option (List SubtitleStream))
    (mi : Option MediaInfo) (maxr q : String) (ua : Option String)
    (dif : Option Bool)
    (hneed : (parse_hw hw).1 = "vaapi" ∨ (parse_hw hw).2 = "vaapi")
    (hdev : env.vaapiDevice = "")
    (hcopy : copyVideoDecision mi maxr = false) :
    build_hls_ffmpeg_cmd env st url hw out is_vod subs mi maxr q ua dif =
      Except.error ("Hardware acceleration '" ++ hw ++
        "' requires VAAPI but no Intel/AMD GPU was detected. " ++
        "Select a different hardware option in settings.") := by
  simp only [build_hls_ffmpeg_cmd]
  rw [hcopy]
  rw [build_video_args_vaapi_missing env hw _ _ maxr q _ hneed hdev]

theorem vaapi_missing_device_error_witness :
    build_hls_ffmpeg_cmd {} stDflt "u8" "vaapi" "/t8" true none none
        "1080p" "high" none none =
      Except.error ("Hardware acceleration '" ++ "vaapi" ++
        "' requires VAAPI but no Intel/AMD GPU was detected. " ++
        "Select a different hardware option in settings.") :=
  vaapi_missing_device_error {} stDflt "u8" "vaapi" "/t8" true none none
    "1080p" "high" none none (by decide) (by decide) (by decide)

/-! ## C4 -/

/-- C4: when both caches miss and the probe extracts a video codec but a
non-positive height, probe_media returns the extracted metadata and subtitles
to the caller but leaves both probe caches exactly as they were. -/
theorem probe_media_invalid_height_uncached (now : Int) (data : ProbeData)
    (is_hls : Bool) (url : String) (series_id episode_id : Option Int)
    (series_name : String) (pc : ProbeCache)
    (hs : ∀ sid, series_id = some sid →
      (series_probe_lookup now pc sid episode_id).1 = none)
    (hu : url_probe_lookup now pc url = none)
    (hvc : (extract_probe data is_hls).1.video_codec ≠ "")
    (hh : (extract_probe data is_hls).1.height ≤ 0) :
    probe_media now (some (data, is_hls)) url series_id episode_id series_name pc =
      (pc, (some (extract_probe data is_hls).2,
        (extract_probe data is_hls).1.subtitles)) := by
  cases hep : extract_probe data is_hls with
  | mk acc mi =>
    rw [hep] at hvc hh
    simp only at hvc hh
    cases series_id with
    | none =>
      simp only [probe_media]
      rw [hu, hep]
      simp [hvc, hh]
    | some sid =>
      have hnone := hs sid rfl
      simp only [probe_media]
      cases hsl : series_probe_lookup now pc sid episode_id with
      | mk hit pc2 =>
        rw [hsl] at hnone
        simp only at hnone
        subst hnone
        rw [hu, hep]
        simp [hvc, hh]

theorem probe_media_invalid_height_uncached_witness :
    probe_media 50 (some (dataH0, false)) "u4" none none "" {} =
      ({}, (some (extract_probe dataH0 false).2,
        (extract_probe dataH0 false).1.subtitles)) :=
  probe_media_invalid_height_uncached 50 dataH0 false "u4" none none "" {}
    (fun sid h => nomatch h) (by decide) (by decide) (by decide)


theorem self_mem_insort {α : Type} (le : α → α → Bool) (x : α) (l : List α) :
    x ∈ insort le x l := by
  cases l with
  | nil => simp [insort]
  | cons y t =>
    simp only [insort]
    split
    · exact List.mem_cons_self x (y :: t)
    · exact List.mem_cons_of_mem y (self_mem_insort le x t)

theorem mem_insort_of_mem {α : Type} (le : α → α → Bool) (x : α) {l : List α} {z : α}
    (h : z ∈ l) : z ∈ insort le x l := by
  induction l with
  | nil => cases h
  | cons y t ih =>
    simp only [insort]
    split
    · exact List.mem_cons_of_mem x h
    · rcases List.mem_cons.mp h with h1 | h1
      · exact h1 ▸ List.mem_cons_self y (insort le x t)
      · exact List.mem_cons_of_mem y (ih h1)

theorem mem_isortBy_of_mem {α : Type} (le : α → α → Bool) {l : List α} {z : α}
    (h : z ∈ l) : z ∈ isortBy le l := by
  induction l with
  | nil => cases h
  | cons x t ih =>
    simp only [isortBy]
    rcases List.mem_cons.mp h with h1 | h1
    · exact h1 ▸ self_mem_insort le x (isortBy le t)
    · exact mem_insort_of_mem le x (ih h1)

/-! ## C3 -/

/-- C3: a VOD seek whose target segment already exists on disk above the size
threshold spawns and kills nothing; it only records the new seek offset on the
session and rewrites the playlist, whose media sequence equals the target
segment index, while the on-disk segments are untouched. -/
theorem seek_smart_no_restart (env : SeekEnv) (sid : String) (seek_time : Int)
    (w : World) (s : Session) (d0 : SessionDir) (size : Nat)
    (hget : aget sid w.reg.sessions = some s) (hvod : s.is_vod = true)
    (hd : aget s.dir w.fs = some d0)
    (hseg : aget (pyIntDiv seek_time get_hls_segment_duration) d0.segs = some size)
    (hsize : MIN_SEGMENT_SIZE_BYTES < size) :
    seek_transcode env sid seek_time w =
      ({ reg := { sessions := aset sid { s with seek_offset := seek_time } w.reg.sessions
                  urlIndex := w.reg.urlIndex }
         fs := aset s.dir
           (regenerate_playlist d0 (pyIntDiv seek_time get_hls_segment_duration)) w.fs
         probe := w.probe }, [],
        SeekOutcome.smart sid ("/transcode/" ++ sid ++ "/stream.m3u8")) ∧
    (regenerate_playlist d0 (pyIntDiv seek_time get_hls_segment_duration)).segs = d0.segs ∧
    ∃ pl, (regenerate_playlist d0 (pyIntDiv seek_time get_hls_segment_duration)).playlist
        = some pl ∧ pl.mediaSequence = pyIntDiv seek_time get_hls_segment_duration := by
  have hinfo : get_seek_session_info sid w =
      some { url := s.url, output_dir := s.dir, process := s.process
             subtitles := s.subtitles, series_id := s.series_id
             episode_id := s.episode_id } := by
    unfold get_seek_session_info
    rw [hget]
    simp [hvod]
  refine ⟨?_, ?_, ?_⟩
  · simp only [seek_transcode, hinfo]
    simp only [hd, Option.getD_some]
    rw [hseg]
    rw [if_pos (by exact decide_eq_true hsize)]
    simp only [seek_smart, hget]
    simp only [hd, Option.getD_some]
  · simp only [regenerate_playlist]
    split
    · rfl
    · rfl
  · have hmem : (pyIntDiv seek_time get_hls_segment_duration, size) ∈
        (isortBy segNameLe d0.segs).filter
          (fun p => decide (pyIntDiv seek_time get_hls_segment_duration ≤ p.1) &&
            decide (MIN_SEGMENT_SIZE_BYTES < p.2)) := by
      refine List.mem_filter.mpr ⟨mem_isortBy_of_mem segNameLe (aget_some_mem hseg), ?_⟩
      simp [hsize]
    have hne := List.ne_nil_of_mem hmem
    simp only [regenerate_playlist]
    rw [if_neg hne]
    exact ⟨_, rfl, rfl⟩

def sess3 : Session := {
  dir := "d3"
  process := Proc.running
  started := 0
  url := "u3"
  is_vod := true
  last_access := 0 }

def dir3 : SessionDir := {
  segs := [(0, 5000), (1, 5000), (2, 5000), (3, 4096), (4, 500)] }

def w3 : World := {
  reg := { sessions := [("s3", sess3)], urlIndex := [("u3", "s3")] }
  fs := [("d3", dir3)] }

def env3 : SeekEnv := { st := {}, now := 100 }

theorem seek_smart_no_restart_witness :
    (seek_transcode env3 "s3" 9 w3 =
      ({ reg := { sessions := aset "s3" { sess3 with seek_offset := 9 } w3.reg.sessions
                  urlIndex := w3.reg.urlIndex }
         fs := aset sess3.dir
           (regenerate_playlist dir3 (pyIntDiv 9 get_hls_segment_duration)) w3.fs
         probe := w3.probe }, [],
        SeekOutcome.smart "s3" ("/transcode/" ++ "s3" ++ "/stream.m3u8")) ∧
    (regenerate_playlist dir3 (pyIntDiv 9 get_hls_segment_duration)).segs = dir3.segs ∧
    ∃ pl, (regenerate_playlist dir3 (pyIntDiv 9 get_hls_segment_duration)).playlist
        = some pl ∧ pl.mediaSequence = pyIntDiv 9 get_hls_segment_duration) ∧
    pyIntDiv 9 get_hls_segment_duration = 3 :=
  ⟨seek_smart_no_restart env3 "s3" 9 w3 sess3 dir3 4096 (by decide) (by decide)
    (by decide) (by decide) (by decide), by decide⟩

/-! ## C9 -/

def info9 : SessionInfo := {
  session_id := "s9"
  url := "u9"
  is_vod := true
  seek_offset := 0 }

def sess9 : Session := {
  dir := "d9"
  process := Proc.running
  started := 0
  url := "u9"
  is_vod := true
  last_access := 0 }

def dir9 : SessionDir := {
  segs := [(0, 5000), (1, 5000), (2, 5000), (3, 4096)]
  session_json := some info9 }

def w9 : World := {
  reg := { sessions := [("s9", sess9)], urlIndex := [("u9", "s9")] }
  fs := [("d9", dir9)] }

def env9 : SeekEnv := { st := {}, now := 50 }

/-- C9 counterexample: a smart seek to 9 seconds records the offset on the
in-memory session but leaves the persisted descriptor seek_offset at 0. -/
theorem smart_seek_descriptor_unchanged :
    (seek_transcode env9 "s9" 9 w9).2.2 =
      SeekOutcome.smart "s9" ("/transcode/" ++ "s9" ++ "/stream.m3u8") ∧
    (seek_transcode env9 "s9" 9 w9).2.1 = [] ∧
    ((aget "d9" (seek_transcode env9 "s9" 9 w9).1.fs).bind
        SessionDir.session_json).map SessionInfo.seek_offset = some 0 ∧
    (aget "s9" (seek_transcode env9 "s9" 9 w9).1.reg.sessions).map
        Session.seek_offset = some 9 := by
  decide

/-- C9 (amended): a restart-path seek that spawns a replacement pipeline and
finds the session persists the new seek offset into the on-disk descriptor;
the smart-seek path updates only the in-memory session. -/
theorem seek_restart_persists_offset (env : SeekEnv) (info : SeekSessionInfo)
    (sid : String) (seek_time segment_num : Int) (w : World) (cmd0 : List String)
    (w2 : World) (si : SessionInfo) (dd : SessionDir)
    (hb : build_hls_ffmpeg_cmd env.plan env.st info.url env.st.transcode_hw
        info.output_dir true (subsOrNone info.subtitles)
        (seek_prepare env info segment_num w).2 env.st.max_resolution env.st.quality
        env.user_agent none = Except.ok cmd0)
    (hupd : update_seek_session sid info.url Proc.running seek_time
        (seek_prepare env info segment_num w).1 = (true, w2))
    (hdd : aget info.output_dir w2.fs = some dd) (hsi : dd.session_json = some si) :
    ((aget info.output_dir
        (seek_restart env info sid seek_time segment_num w).1.fs).bind
      SessionDir.session_json).map SessionInfo.seek_offset = some seek_time := by
  simp only [seek_restart]
  rw [hb, hupd]
  have hpersist : ((aget info.output_dir
      (seek_persist info.output_dir seek_time w2).fs).bind
        SessionDir.session_json).map SessionInfo.seek_offset = some seek_time := by
    simp only [seek_persist, hdd, hsi, aget_aset_self]
    simp
  cases hr : env.playlistReady
  · simpa using hpersist
  · simpa using hpersist

def info9r : SessionInfo := {
  session_id := "s9r"
  url := "u9r"
  is_vod := true
  seek_offset := 0 }

def seekinfo9r : SeekSessionInfo := {
  url := "u9r"
  output_dir := "d9r"
  process := Proc.exited 0
  subtitles := []
  series_id := none
  episode_id := none }

def dir9r : SessionDir := {
  segs := [(0, 5000)]
  session_json := some info9r }

def sess9r : Session := {
  dir := "d9r"
  process := Proc.exited 0
  started := 0
  url := "u9r"
  is_vod := true
  last_access := 0 }

def w9r : World := {
  reg := { sessions := [("s9r", sess9r)], urlIndex := [("u9r", "s9r")] }
  fs := [("d9r", dir9r)] }

def env9r : SeekEnv := { st := {}, now := 50 }

def cmd9r : List String :=
  match build_hls_ffmpeg_cmd env9r.plan env9r.st seekinfo9r.url env9r.st.transcode_hw
      seekinfo9r.output_dir true (subsOrNone seekinfo9r.subtitles)
      (seek_prepare env9r seekinfo9r 10 w9r).2 env9r.st.max_resolution env9r.st.quality
      env9r.user_agent none with
  | Except.ok c => c
  | Except.error _ => []

def w9r2 : World :=
  (update_seek_session "s9r" seekinfo9r.url Proc.running 30
    (seek_prepare env9r seekinfo9r 10 w9r).1).2

def dd9r : SessionDir := (aget seekinfo9r.output_dir w9r2.fs).getD {}

theorem seek_restart_persists_offset_witness :
    ((aget seekinfo9r.output_dir
        (seek_restart env9r seekinfo9r "s9r" 30 10 w9r).1.fs).bind
      SessionDir.session_json).map SessionInfo.seek_offset = some 30 :=
  seek_restart_persists_offset env9r seekinfo9r "s9r" 30 10 w9r cmd9r w9r2 info9r dd9r
    (by rfl) (by decide) (by decide) (by decide)


theorem startedLe_total : ∀ a b : String × Session,
    startedLe a b = false → startedLe b a = true := by
  intro a b h
  simp only [startedLe, decide_eq_false_iff_not, decide_eq_true_eq] at *
  omega

theorem startedLe_trans : ∀ a b c : String × Session,
    startedLe a b = true → startedLe b c = true → startedLe a c = true := by
  intro a b c hab hbc
  simp only [startedLe, decide_eq_true_eq] at *
  omega

def stDflt2 : Settings := {}

def sessA2 : Session := {
  dir := "dA2"
  process := Proc.running
  started := 1
  url := "uA2"
  is_vod := true
  last_access := 100
  username := "alice" }

def sessB2 : Session := {
  dir := "dB2"
  process := Proc.running
  started := 2
  url := "uB2"
  is_vod := true
  last_access := 100
  username := "alice" }

def wEx2 : World := {
  reg := { sessions := [("sA2", sessA2), ("sB2", sessB2)]
           urlIndex := [("uA2", "sA2"), ("uB2", "sB2")] } }

/-- C2: whichever cap triggers an eviction, the evicted session is the
caller's chronologically oldest qualifying one — its started time is minimal
and every qualifying session stored before it has a strictly larger started
time (so ties go to insertion order); a full source whose sessions include
none of the caller's yields the capacity refusal; and with userMax = 1 and two
sessions for the same user started at 1 and 2, the one started at 1 is
evicted. -/
theorem eviction_targets_oldest (st : Settings) (now : Int)
    (username source_id : String) (user_max source_max : Nat) (w : World)
    (sid0 : String) (s0 : Session) (rest : List (String × Session)) :
    (source_id ≠ "" → 0 < source_max →
      source_max ≤ (get_source_sessions source_id w.reg).length →
      (get_source_sessions source_id w.reg).filter
          (fun p => decide (p.2.username = username)) = (sid0, s0) :: rest →
      (∀ p ∈ (w.reg.sessions.filter
          (fun p => decide (p.2.source_id = source_id))).filter
          (fun p => decide (p.2.username = username)),
        s0.started ≤ p.2.started) ∧
      (∃ pre post,
        (w.reg.sessions.filter (fun p => decide (p.2.source_id = source_id))).filter
            (fun p => decide (p.2.username = username)) = pre ++ (sid0, s0) :: post ∧
        ∀ p ∈ pre, s0.started < p.2.started) ∧
      enforce_source_step st now username source_id source_max w =
        Sum.inl (stop_session st now sid0 true w)) ∧
    (source_id = "" → 0 < user_max →
      user_max ≤ (get_user_sessions username w.reg).length →
      get_user_sessions username w.reg = (sid0, s0) :: rest →
      (∀ p ∈ w.reg.sessions.filter (fun p => decide (p.2.username = username)),
        s0.started ≤ p.2.started) ∧
      (∃ pre post,
        w.reg.sessions.filter (fun p => decide (p.2.username = username)) =
          pre ++ (sid0, s0) :: post ∧ ∀ p ∈ pre, s0.started < p.2.started) ∧
      enforce_stream_limits st now username source_id user_max source_max w =
        ((stop_session st now sid0 true w).1, (stop_session st now sid0 true w).2,
          none)) ∧
    (source_id ≠ "" → 0 < source_max →
      source_max ≤ (get_source_sessions source_id w.reg).length →
      (get_source_sessions source_id w.reg).filter
          (fun p => decide (p.2.username = username)) = [] →
      enforce_stream_limits st now username source_id user_max source_max w =
        (w, [], some ("Source at capacity (" ++ toString source_max ++
          " streams)"))) ∧
    ((enforce_stream_limits stDflt2 100 "alice" "" 1 0 wEx2).2.1 =
        [ProcEffect.kill "sA2"] ∧
      akeys (enforce_stream_limits stDflt2 100 "alice" "" 1 0 wEx2).1.reg.sessions =
        ["sB2"] ∧ sessA2.started < sessB2.started) := by
  refine ⟨?_, ?_, ?_, by decide⟩
  · intro h1 h2 h3 hhead
    have hfe : isortBy startedLe ((w.reg.sessions.filter
        (fun p => decide (p.2.source_id = source_id))).filter
        (fun p => decide (p.2.username = username))) = (sid0, s0) :: rest := by
      rw [← filter_isortBy startedLe startedLe_total startedLe_trans]
      exact hhead
    obtain ⟨hmin, pre, post, hdecomp, hpre⟩ :=
      isortBy_head_stable_min startedLe startedLe_total startedLe_trans _ _ _ hfe
    refine ⟨?_, ⟨pre, post, hdecomp, ?_⟩, ?_⟩
    · intro p hp
      have := hmin p hp
      simpa [startedLe] using this
    · intro p hp
      have := hpre p hp
      simp only [startedLe, decide_eq_false_iff_not, decide_eq_true_eq] at this
      omega
    · unfold enforce_source_step
      rw [if_pos ⟨h1, h2⟩, if_pos h3, hhead]
  · intro hsid h2 h3 hhead
    have hstep : enforce_source_step st now username source_id source_max w =
        Sum.inl (w, []) := by
      unfold enforce_source_step
      rw [if_neg]
      intro hcon
      exact hcon.1 hsid
    have hfe : isortBy startedLe (w.reg.sessions.filter
        (fun p => decide (p.2.username = username))) = (sid0, s0) :: rest := hhead
    obtain ⟨hmin, pre, post, hdecomp, hpre⟩ :=
      isortBy_head_stable_min startedLe startedLe_total startedLe_trans _ _ _ hfe
    refine ⟨?_, ⟨pre, post, hdecomp, ?_⟩, ?_⟩
    · intro p hp
      have := hmin p hp
      simpa [startedLe] using this
    · intro p hp
      have := hpre p hp
      simp only [startedLe, decide_eq_false_iff_not, decide_eq_true_eq] at this
      omega
    · unfold enforce_stream_limits
      rw [hstep]
      simp only
      rw [if_pos h2, if_pos h3, hhead]
      simp
  · intro h1 h2 h3 hempty
    have hstep : enforce_source_step st now username source_id source_max w =
        Sum.inr ("Source at capacity (" ++ toString source_max ++ " streams)") := by
      unfold enforce_source_step
      rw [if_pos ⟨h1, h2⟩, if_pos h3, hempty]
    unfold enforce_stream_limits
    rw [hstep]

/-! ## C6 -/

/-- C6 (amended): when no session is registered for the URL and no username is
supplied, a fresh-start failure of the bounded playlist wait surfaces as the
HTTP 500 of the first attempt when no series id was supplied, and is retried
exactly once — against the attempt-1 world with that episode's series probe
cache entry invalidated — when one was; moreover the teardown of a failed
attempt is a NON-forced stop, which always retains a VOD session whose cache
timeout is positive (it is cached, not removed). -/
theorem start_failure_nonforced_and_retry (env : StartCallEnv)
    (url content_type : String) (episode_id : Option Int) (series_name : String)
    (dif : Option Bool) (source_id : String) (umax smax : Nat) (w : World)
    (hidx : aget url w.reg.urlIndex = none) :
    (∀ w4 eff4 code detail,
      do_start_transcode env.attempt1 env.st env.plan env.user_agent url content_type
          none episode_id 0 series_name dif "" source_id w =
        (w4, eff4, StartOutcome.httpError code detail) →
      start_transcode env url content_type none episode_id series_name dif "" source_id
          umax smax w = (w4, eff4, StartOutcome.httpError code detail)) ∧
    (∀ sid w4 eff4 code detail w6 eff6 out2,
      do_start_transcode env.attempt1 env.st env.plan env.user_agent url content_type
          (some sid) episode_id 0 series_name dif "" source_id w =
        (w4, eff4, StartOutcome.httpError code detail) →
      do_start_transcode env.attempt2 env.st env.plan env.user_agent url content_type
          (some sid) episode_id 0 series_name dif "" source_id
          { w4 with probe := invalidate_series_probe_cache sid episode_id w4.probe } =
        (w6, eff6, out2) →
      start_transcode env url content_type (some sid) episode_id series_name dif ""
          source_id umax smax w = (w6, eff4 ++ eff6, out2)) ∧
    (∀ (st2 : Settings) (now2 : Int) (sid2 : String) (w2 : World) (s2 : Session),
      aget sid2 w2.reg.sessions = some s2 → s2.is_vod = true →
      0 < get_vod_cache_timeout st2 →
      (aget sid2 (stop_session st2 now2 sid2 false w2).1.reg.sessions).isSome = true) := by
  have hex : get_existing_session env.st env.now url w.reg = (none, false, 0) := by
    unfold get_existing_session
    rw [hidx]
  refine ⟨?_, ?_, ?_⟩
  · intro w4 eff4 code detail hatt
    simp only [start_transcode]
    rw [if_neg (fun h => h rfl)]
    simp only [hex]
    rw [hatt]
    simp
  · intro sid w4 eff4 code detail w6 eff6 out2 hatt1 hatt2
    simp only [start_transcode]
    rw [if_neg (fun h => h rfl)]
    simp only [hex]
    rw [hatt1]
    simp only
    rw [hatt2]
    simp
  · intro st2 now2 sid2 w2 s2 hget2 hvod2 hct2
    unfold stop_session
    simp only [hget2]
    split_ifs with h1 h2 h3 h4 h5 h6 h7
    all_goals simp_all [aget_aset_self]

def att1C6 : StartEnv := {
  session_id := "n1"
  output_dir := "d1"
  tReg := 100
  playlistReady := false
  tFail := 103 }

def envC6 : StartCallEnv := {
  st := {}
  now := 100
  reuse := { now := 100 }
  attempt1 := att1C6
  attempt2 := att1C6 }

def resF : World × List ProcEffect × StartOutcome :=
  do_start_transcode envC6.attempt1 envC6.st envC6.plan envC6.user_agent "um" "movie"
    none none 0 "" none "" "" {}

/-- C6 counterexample: a movie start whose playlist wait times out is NOT torn
down: the outcome is HTTP 500, yet the session, its URL index entry and its
output directory all survive the attempt (the teardown stop is non-forced and
the fresh VOD session is retained). -/
theorem start_failure_movie_not_torn_down :
    resF.2.2 = StartOutcome.httpError 500
      "Transcode failed - check server logs for details" ∧
    akeys resF.1.reg.sessions = ["n1"] ∧
    aget "um" resF.1.reg.urlIndex = some "n1" ∧
    (aget "d1" resF.1.fs).isSome = true ∧
    resF.2.1.length = 1 := by
  decide

theorem start_failure_nonforced_and_retry_witness :
    start_transcode envC6 "um" "movie" none none "" none "" "" 1 1 {} =
      (resF.1, resF.2.1, StartOutcome.httpError 500
        "Transcode failed - check server logs for details") :=
  (start_failure_nonforced_and_retry envC6 "um" "movie" none "" none "" 1 1 {}
      (by decide)).1 resF.1 resF.2.1 500
    "Transcode failed - check server logs for details" (by decide)


theorem registryInv_single (sid : String) (s : Session) (hurl : s.url ≠ "") :
    RegistryInv { sessions := [(sid, s)], urlIndex := [(s.url, sid)] } := by
  refine ⟨?_, ?_, ?_, ?_, ?_⟩
  · intro p hp
    simp only [List.mem_singleton] at hp
    subst hp
    simp [aget]
  · intro p hp s2 hs2
    simp only [List.mem_singleton] at hp
    subst hp
    simp only [aget, if_pos rfl] at hs2
    cases hs2
    rfl
  · simp [akeys]
  · simp [akeys]
  · intro p hp
    simp only [List.mem_singleton] at hp
    subst hp
    exact hurl

/-- C1: after each mutating registry operation — a non-forced or forced stop,
admission-limit enforcement, a resume-failure cleanup, a seek, a fresh start
and the recovery sweep — every URL index entry still references an existing
session. -/
theorem url_index_integrity (st : Settings) (now : Int) (w : World)
    (sid url username source_id : String) (force : Bool)
    (user_max source_max : Nat) (rc elapsed : Int) (senv : SeekEnv)
    (seek_time : Int) (stEnv : StartEnv) (plan : PlanEnv) (ua : Option String)
    (content_type : String) (series_id episode_id : Option Int) (oso : Int)
    (series_name : String) (dif : Option Bool) (dirs : List RecoverDirInput)
    (hInv : RegistryInv w.reg)
    (hmon : ∀ s, aget sid w.reg.sessions = some s → s.url = url)
    (hfresh : aget stEnv.session_id w.reg.sessions = none)
    (hurl : url ≠ "")
    (hrf : RecoverFresh dirs w.reg) :
    UrlIndexOk (stop_session st now sid force w).1.reg ∧
    UrlIndexOk (enforce_stream_limits st now username source_id user_max
      source_max w).1.reg ∧
    UrlIndexOk (monitor_resume_ffmpeg rc elapsed sid url w).reg ∧
    UrlIndexOk (seek_transcode senv sid seek_time w).1.reg ∧
    UrlIndexOk (do_start_transcode stEnv st plan ua url content_type series_id
      episode_id oso series_name dif username source_id w).1.reg ∧
    UrlIndexOk (cleanup_and_recover_sessions st now dirs w).reg :=
  ⟨(stop_session_inv st now sid force w hInv).1,
   (enforce_stream_limits_inv st now username source_id user_max source_max w hInv).1,
   (monitor_resume_inv rc elapsed sid url w hInv hmon).1,
   (seek_transcode_inv senv sid seek_time w hInv).1,
   (do_start_transcode_inv stEnv st plan ua url content_type series_id episode_id oso
     series_name dif username source_id w hInv hfresh hurl).1,
   (cleanup_and_recover_inv st now dirs w hInv hrf).1⟩

def sessC1 : Session := {
  dir := "dC1"
  process := Proc.running
  started := 0
  url := "u1"
  is_vod := true
  last_access := 0 }

def wC1 : World := {
  reg := { sessions := [("s1", sessC1)], urlIndex := [("u1", "s1")] } }

def infoC1 : SessionInfo := { session_id := "r1", url := "ur", is_vod := true }

def dC1 : RecoverDirInput := { name := "dr", mtime := 90, parsed := some infoC1 }

def envSC1 : SeekEnv := { st := {}, now := 10 }

def stEnvC1 : StartEnv := { session_id := "n2", output_dir := "dn", tReg := 5 }

theorem url_index_integrity_witness :
    UrlIndexOk (stop_session {} 10 "s1" false wC1).1.reg ∧
    UrlIndexOk (enforce_stream_limits {} 10 "alice" "" 1 1 wC1).1.reg ∧
    UrlIndexOk (monitor_resume_ffmpeg 1 5 "s1" "u1" wC1).reg ∧
    UrlIndexOk (seek_transcode envSC1 "s1" 9 wC1).1.reg ∧
    UrlIndexOk (do_start_transcode stEnvC1 {} {} none "u1" "movie" none none 0 ""
      none "alice" "" wC1).1.reg ∧
    UrlIndexOk (cleanup_and_recover_sessions {} 10 [dC1] wC1).reg :=
  url_index_integrity {} 10 wC1 "s1" "u1" "alice" "" false 1 1 1 5 envSC1 9
    stEnvC1 {} none "movie" none none 0 "" none [dC1]
    (registryInv_single "s1" sessC1 (by decide))
    (fun s hs => by rw [← Option.some.inj hs]; rfl)
    (by decide) (by decide)
    ⟨fun d hd info hp => by
      simp only [List.mem_singleton] at hd
      subst hd
      rw [show info = infoC1 from (Option.some.inj hp).symm]
      decide,
     by simp⟩
